import Mathlib

/-!
Verification development for the travel-planning backend
(`backend/app/services/planner.py`, `deepseek_ai.py`, `search.py`,
`amap_mcp.py`, `database.py`).

The Python services are shallowly embedded: strings are `List Char` or
`String`, JSON documents are an inductive `Json` type with an executable
decoder mirroring `json.loads`, network calls are inputs of type
`Except Unit _` (`.error ()` models a raised exception), and every service
function becomes a total Lean function (exception propagation is an
`Except Unit _` result).
-/

namespace TRS

/-! ## Character and string utilities -/

/-- The whitespace characters matched by Python's `\s` regex class
(modulo exotic unicode whitespace, which never occurs in the data
handled here): space, tab, newline, carriage return, vertical tab,
form feed. -/
def isPyWs (c : Char) : Bool :=
  c = ' ' || c = '\t' || c = '\n' || c = '\r' || c = '\x0b' || c = '\x0c'

/-- Python `str.strip()` over the `\s` class; also the combined effect of
the greedy `\s*` groups surrounding the capture group in the regex
`r'```json\s*(.*?)\s*```'`. -/
def pyStrip (s : List Char) : List Char :=
  ((s.dropWhile isPyWs).reverse.dropWhile isPyWs).reverse

/-- Substring test (`needle in hay` for Python strings). -/
def containsSub (hay needle : List Char) : Bool :=
  match hay with
  | [] => needle.isEmpty
  | _ :: rest => needle.isPrefixOf hay || containsSub rest needle

/-- Python `str.lower()` (all URLs handled here are ASCII). -/
def lowerStr (s : List Char) : List Char := s.map Char.toLower

/-! ## Fenced-block extraction

`re.search(r'```json\s*(.*?)\s*```', response, re.DOTALL)` in
`DeepSeekAI.parse_plan_from_response` and in
`TripPlanner._extract_travel_intent`.  `re.search` returns the leftmost
match: the first occurrence of the literal ```` ```json ```` that is
followed (anywhere later, `.` matches newlines under DOTALL) by a
closing ```` ``` ````.  The lazy group together with the two `\s*`
stretches yields the text strictly between the two fences with
leading and trailing whitespace stripped. -/

/-- The opening fence literal ```` ```json ```` (`\x60` is the backquote
character). -/
def fenceOpen : List Char :=
  ['\x60', '\x60', '\x60', 'j', 's', 'o', 'n']

/-- The closing fence literal ```` ``` ````. -/
def fenceClose : List Char := ['\x60', '\x60', '\x60']

/-- Scan for the closing ```` ``` ````; return the characters before it.
`none` when no closing fence occurs. -/
def findClose : List Char → Option (List Char)
  | [] => none
  | c :: rest =>
    if fenceClose.isPrefixOf (c :: rest) then some []
    else (findClose rest).map (fun l => c :: l)

/-- Scan for the leftmost ```` ```json ```` that has a closing fence after
it; return the raw characters strictly between the two fences. -/
def findFencedRaw : List Char → Option (List Char)
  | '\x60' :: '\x60' :: '\x60' :: 'j' :: 's' :: 'o' :: 'n' :: after =>
    (match findClose after with
     | some content => some content
     | none => findFencedRaw ('\x60' :: '\x60' :: 'j' :: 's' :: 'o' :: 'n' :: after))
  | _ :: rest => findFencedRaw rest
  | [] => none

/-- `json_match.group(1)`: the raw fenced content with the surrounding
`\s*` stretches removed. -/
def extractJsonBlock (s : List Char) : Option (List Char) :=
  (findFencedRaw s).map pyStrip

/-! ## JSON documents and `json.loads` -/

/-- JSON values as produced by `json.loads`.  Numbers keep their raw
source token (the embedding never computes with them, and raw tokens
keep decoding injective).  Object member lists carry no duplicate keys:
the decoder collapses duplicates the way a Python `dict` does. -/
inductive Json where
  | null : Json
  | bool : Bool → Json
  | num : List Char → Json
  | str : List Char → Json
  | arr : List Json → Json
  | obj : List (List Char × Json) → Json
  deriving Inhabited

/-- Python-`dict` insertion: overwrite in place if the key exists,
otherwise append (member lists here are duplicate-free, as in a Python
`dict`). -/
def upsert : List (List Char × Json) → List Char → Json →
    List (List Char × Json)
  | [], k, v => [(k, v)]
  | a :: rest, k, v =>
    if a.1 = k then (k, v) :: rest else a :: upsert rest k v

/-- Prepend a decoded member to an already-collapsed member list with
Python `dict` duplicate semantics: the first occurrence of a key keeps
its position, the last occurrence keeps its value. -/
def consMember (key : List Char) (v : Json)
    (rest : List (List Char × Json)) : List (List Char × Json) :=
  match (rest.find? (fun p => p.1 = key)).map Prod.snd with
  | some v' => (key, v') :: rest.filter (fun p => !(p.1 = key))
  | none => (key, v) :: rest

/-- `d.get(k)` on a decoded object (`none` = key absent / `None`). -/
def objGet (kvs : List (List Char × Json)) (k : List Char) : Option Json :=
  (kvs.find? (fun p => p.1 = k)).map Prod.snd

/-- JSON whitespace accepted by Python's decoder. -/
def isJsonWs (c : Char) : Bool :=
  c = ' ' || c = '\t' || c = '\n' || c = '\r'

def skipWs (s : List Char) : List Char := s.dropWhile isJsonWs

def hexVal (c : Char) : Option Nat :=
  if '0' ≤ c ∧ c ≤ '9' then some (c.toNat - '0'.toNat)
  else if 'a' ≤ c ∧ c ≤ 'f' then some (c.toNat - 'a'.toNat + 10)
  else if 'A' ≤ c ∧ c ≤ 'F' then some (c.toNat - 'A'.toNat + 10)
  else none

/-- Decode a JSON string body (after the opening quote): returns the
decoded characters and the input after the closing quote.  Python's
strict decoder rejects raw control characters and unknown escapes. -/
def parseStringBody : List Char → Option (List Char × List Char)
  | [] => none
  | '"' :: rest => some ([], rest)
  | '\\' :: rest =>
    match rest with
    | '"' :: r => (parseStringBody r).map (fun p => ('"' :: p.1, p.2))
    | '\\' :: r => (parseStringBody r).map (fun p => ('\\' :: p.1, p.2))
    | '/' :: r => (parseStringBody r).map (fun p => ('/' :: p.1, p.2))
    | 'b' :: r => (parseStringBody r).map (fun p => ('\x08' :: p.1, p.2))
    | 'f' :: r => (parseStringBody r).map (fun p => ('\x0c' :: p.1, p.2))
    | 'n' :: r => (parseStringBody r).map (fun p => ('\n' :: p.1, p.2))
    | 'r' :: r => (parseStringBody r).map (fun p => ('\r' :: p.1, p.2))
    | 't' :: r => (parseStringBody r).map (fun p => ('\t' :: p.1, p.2))
    | 'u' :: h1 :: h2 :: h3 :: h4 :: r =>
      match hexVal h1, hexVal h2, hexVal h3, hexVal h4 with
      | some a, some b, some c, some d =>
        (parseStringBody r).map
          (fun p => (Char.ofNat (((a * 16 + b) * 16 + c) * 16 + d) :: p.1, p.2))
      | _, _, _, _ => none
    | _ => none
  | c :: rest =>
    if c.toNat < 32 then none
    else (parseStringBody rest).map (fun p => (c :: p.1, p.2))

/-- Characters a JSON number token may contain. -/
def isNumChar (c : Char) : Bool :=
  c.isDigit || c = '-' || c = '+' || c = '.' || c = 'e' || c = 'E'

/-- Consume one-or-more digits, returning the rest. -/
def chompDigits (s : List Char) : Option (List Char) :=
  if (s.takeWhile Char.isDigit).isEmpty then none
  else some (s.dropWhile Char.isDigit)

def validExpPart : List Char → Bool
  | [] => true
  | c :: r =>
    if c = 'e' ∨ c = 'E' then
      let r2 := match r with
        | '+' :: x => x
        | '-' :: x => x
        | _ => r
      match chompDigits r2 with
      | some [] => true
      | _ => false
    else false

def validFracPart (s : List Char) : Bool :=
  match s with
  | '.' :: r =>
    match chompDigits r with
    | some rest => validExpPart rest
    | none => false
  | _ => validExpPart s

/-- Validity of a JSON number token:
`-?(0|[1-9][0-9]*)(\.[0-9]+)?([eE][+-]?[0-9]+)?`. -/
def validNumber (tok : List Char) : Bool :=
  let t := match tok with
    | '-' :: r => r
    | _ => tok
  match t with
  | [] => false
  | '0' :: r => validFracPart r
  | c :: r => c.isDigit && validFracPart (r.dropWhile Char.isDigit)

mutual

/-- Decode one JSON value; returns the value and the remaining input.
Fuel only bounds recursion depth; `jsonLoads` supplies enough of it for
any input.  `NaN`, `Infinity`, `-Infinity` are accepted like Python's
decoder and kept as raw number tokens. -/
def parseValue : Nat → List Char → Option (Json × List Char)
  | 0, _ => none
  | fuel + 1, s =>
    match skipWs s with
    | 'n' :: 'u' :: 'l' :: 'l' :: rest => some (Json.null, rest)
    | 't' :: 'r' :: 'u' :: 'e' :: rest => some (Json.bool true, rest)
    | 'f' :: 'a' :: 'l' :: 's' :: 'e' :: rest => some (Json.bool false, rest)
    | 'N' :: 'a' :: 'N' :: rest => some (Json.num "NaN".data, rest)
    | 'I' :: 'n' :: 'f' :: 'i' :: 'n' :: 'i' :: 't' :: 'y' :: rest =>
      some (Json.num "Infinity".data, rest)
    | '-' :: 'I' :: 'n' :: 'f' :: 'i' :: 'n' :: 'i' :: 't' :: 'y' :: rest =>
      some (Json.num "-Infinity".data, rest)
    | '"' :: rest => (parseStringBody rest).map (fun p => (Json.str p.1, p.2))
    | '[' :: rest =>
      (match skipWs rest with
       | ']' :: r2 => some (Json.arr [], r2)
       | r1 => (parseElems fuel r1).map (fun p => (Json.arr p.1, p.2)))
    | '{' :: rest =>
      (match skipWs rest with
       | '}' :: r2 => some (Json.obj [], r2)
       | r1 => (parseMembers fuel r1).map (fun p => (Json.obj p.1, p.2)))
    | c :: rest =>
      if isNumChar c then
        let tok := (c :: rest).takeWhile isNumChar
        if validNumber tok then
          some (Json.num tok, (c :: rest).dropWhile isNumChar)
        else none
      else none
    | [] => none

/-- Decode the elements of a non-empty array (after `[`). -/
def parseElems : Nat → List Char → Option (List Json × List Char)
  | 0, _ => none
  | fuel + 1, s =>
    match parseValue fuel s with
    | none => none
    | some (v, rest) =>
      match skipWs rest with
      | ',' :: r2 => (parseElems fuel r2).map (fun p => (v :: p.1, p.2))
      | ']' :: r2 => some ([v], r2)
      | _ => none

/-- Decode the members of a non-empty object (after `{`), collapsing
duplicate keys the way a Python `dict` does (first position, last
value). -/
def parseMembers : Nat → List Char →
    Option (List (List Char × Json) × List Char)
  | 0, _ => none
  | fuel + 1, s =>
    match skipWs s with
    | '"' :: rest =>
      (match parseStringBody rest with
       | none => none
       | some (key, r1) =>
         match skipWs r1 with
         | ':' :: r2 =>
           (match parseValue fuel r2 with
            | none => none
            | some (v, r3) =>
              match skipWs r3 with
              | ',' :: r4 =>
                (parseMembers fuel r4).map
                  (fun p => (consMember key v p.1, p.2))
              | '}' :: r4 => some ([(key, v)], r4)
              | _ => none)
         | _ => none)
    | _ => none

end

/-- `json.loads`: one value, surrounding whitespace allowed, trailing
garbage rejected (`Extra data`).  `none` models a raised
`JSONDecodeError`. -/
def jsonLoads (s : List Char) : Option Json :=
  match parseValue (2 * s.length + 2) s with
  | some (v, rest) => if (skipWs rest).isEmpty then some v else none
  | none => none

/-! ## `DeepSeekAI.parse_plan_from_response` -/

/-- `plan.get("type") == "trip_plan"`.  On a non-dict decode result the
Python attribute access raises, which the surrounding `except` turns
into `None`; both are `false` here. -/
def isTripPlanJson (j : Json) : Bool :=
  match j with
  | Json.obj kvs =>
    match objGet kvs "type".data with
    | some (Json.str s) => s = "trip_plan".data
    | _ => false
  | _ => false

/-- `DeepSeekAI.parse_plan_from_response` (deepseek_ai.py:163-184): find
the fenced JSON block, decode it, and return the decoded plan only when
it carries the `"type": "trip_plan"` marker; every failure mode (no
block, decode error, non-dict payload, missing marker) yields `none`. -/
def parsePlanFromResponse (response : List Char) : Option Json :=
  match extractJsonBlock response with
  | none => none
  | some block =>
    match jsonLoads block with
    | none => none
    | some plan => if isTripPlanJson plan then some plan else none

/-- A response prefix whose (first) fenced JSON block decodes but lacks
the itinerary marker. -/
def c10FirstPart : String := "```json \x7b\"a\": 1\x7d ```"

/-- A fenced JSON block that is a valid itinerary payload with the
marker. -/
def c10SecondBlock : String :=
  "```json \x7b\"type\": \"trip_plan\", \"days\": 2\x7d ```"

/-- The decoded itinerary payload of `c10SecondBlock`. -/
def c10PlanJson : Json :=
  Json.obj [("type".data, Json.str "trip_plan".data),
            ("days".data, Json.num "2".data)]

/-! ## `TripPlanner._extract_travel_intent` (IntentExtractor) -/

/-- `TransportMode` (models.py). -/
inductive TransportMode where
  | walking
  | driving
  | transit
  | bicycling
  deriving DecidableEq

/-- The `.value` of a transport mode. -/
def TransportMode.value : TransportMode → String
  | .walking => "walking"
  | .driving => "driving"
  | .transit => "transit"
  | .bicycling => "bicycling"

/-- `PlanRequest` (models.py).  `budget` is kept as its rendered decimal
text; it is unused by the code paths embedded here. -/
structure PlanRequest where
  destination : String
  days : Nat
  preferences : List String
  description : Option String
  budget : Option String
  budgetLevel : Option String
  travelWith : Option String
  startDate : Option String
  transportMode : TransportMode

/-- The canned default intent returned by `_extract_travel_intent` on
any failure (planner.py:212-224). -/
def defaultIntent (req : PlanRequest) : Json :=
  Json.obj [
    ("specific_places".data, Json.arr []),
    ("must_eat".data, Json.arr []),
    ("travel_style".data, Json.str "综合体验".data),
    ("special_needs".data, Json.arr []),
    ("budget_sensitivity".data, Json.str "中".data),
    ("photo_spots_needed".data, Json.bool true),
    ("local_experience".data, Json.bool true),
    ("avoid_crowds".data, Json.bool false),
    ("food_priority".data, Json.str "中".data),
    ("suggested_areas".data, Json.arr [Json.str req.destination.data]),
    ("search_keywords".data, Json.arr [
      Json.str (req.destination ++ "必去景点").data,
      Json.str (req.destination ++ "网红打卡").data])]

/-- `TripPlanner._extract_travel_intent` (planner.py:154-224).  The chat
provider's behaviour is the `chat` argument: `.error ()` models a raised
exception.  The function finds a fenced JSON block in the response and
decodes it; absent a block it decodes the whole response; any failure
inside the `try` yields the default intent.  The decoded JSON is
returned without any validation. -/
def extractTravelIntent (chat : Except Unit (List Char))
    (req : PlanRequest) : Json :=
  match chat with
  | .error _ => defaultIntent req
  | .ok resp =>
    match findFencedRaw resp with
    | some raw =>
      (match jsonLoads (pyStrip raw) with
       | some j => j
       | none => defaultIntent req)
    | none =>
      (match jsonLoads resp with
       | some j => j
       | none => defaultIntent req)

/-- Helper for the spec-side validity predicate: a JSON array of
strings. -/
def isStrArrOpt : Option Json → Bool
  | some (Json.arr xs) =>
    xs.all (fun j => match j with | Json.str _ => true | _ => false)
  | _ => false

/-- Helper: a JSON string. -/
def isStrOpt : Option Json → Bool
  | some (Json.str _) => true
  | _ => false

/-- Helper: a JSON boolean. -/
def isBoolOpt : Option Json → Bool
  | some (Json.bool _) => true
  | _ => false

/-- Modelled from the spec: "a structurally valid intent (all required
keys present, with correct types)", with the required keys and types
taken from the spec's `TravelIntent` data model (spec §3): sequences of
strings for `specific_places`, `must_eat`, `special_needs`,
`suggested_areas`, `search_keywords`; strings for `travel_style`,
`budget_sensitivity`, `food_priority`; booleans for
`photo_spots_needed`, `local_experience`, `avoid_crowds`.  The source
has no such validation anywhere; this definition exists only to compare
the code's behaviour against the spec's words. -/
def structurallyValidIntent (j : Json) : Bool :=
  match j with
  | Json.obj kvs =>
    isStrArrOpt (objGet kvs "specific_places".data) &&
    isStrArrOpt (objGet kvs "must_eat".data) &&
    isStrOpt (objGet kvs "travel_style".data) &&
    isStrArrOpt (objGet kvs "special_needs".data) &&
    isStrOpt (objGet kvs "budget_sensitivity".data) &&
    isBoolOpt (objGet kvs "photo_spots_needed".data) &&
    isBoolOpt (objGet kvs "local_experience".data) &&
    isBoolOpt (objGet kvs "avoid_crowds".data) &&
    isStrOpt (objGet kvs "food_priority".data) &&
    isStrArrOpt (objGet kvs "suggested_areas".data) &&
    isStrArrOpt (objGet kvs "search_keywords".data)
  | _ => false

/-- A concrete request used by counterexamples and witnesses. -/
def req0 : PlanRequest :=
  { destination := "杭州", days := 2, preferences := ["美食"],
    description := none, budget := none, budgetLevel := none,
    travelWith := none, startDate := none,
    transportMode := TransportMode.transit }

/-! ## Python value rendering

`f"{x}"` / `str(x)` and `json.dumps(x, ensure_ascii=False)` on decoded
JSON values.  String escaping inside `repr`/`dumps` is elided (the
rendered values here are place names, URLs and weather fields, which
the claims never constrain character-by-character). -/

/-- `sep.join(parts)`. -/
def joinStrSep (sep : String) : List String → String
  | [] => ""
  | [x] => x
  | x :: rest => x ++ sep ++ joinStrSep sep rest

mutual

/-- Python `repr` of a decoded JSON value. -/
def pyRepr : Json → String
  | Json.null => "None"
  | Json.bool true => "True"
  | Json.bool false => "False"
  | Json.num t => String.mk t
  | Json.str s => "'" ++ String.mk s ++ "'"
  | Json.arr xs => "[" ++ pyReprElems xs ++ "]"
  | Json.obj kvs => "\x7b" ++ pyReprPairs kvs ++ "\x7d"

def pyReprElems : List Json → String
  | [] => ""
  | [x] => pyRepr x
  | x :: rest => pyRepr x ++ ", " ++ pyReprElems rest

def pyReprPairs : List (List Char × Json) → String
  | [] => ""
  | [(k, v)] => "'" ++ String.mk k ++ "': " ++ pyRepr v
  | (k, v) :: rest =>
    "'" ++ String.mk k ++ "': " ++ pyRepr v ++ ", " ++ pyReprPairs rest

end

/-- Python `str(x)` / f-string interpolation of a decoded JSON value. -/
def pyStr : Json → String
  | Json.str s => String.mk s
  | j => pyRepr j

/-- `x.get(k, '')` rendered into an f-string. -/
def pyStrOpt : Option Json → String
  | some v => pyStr v
  | none => ""

mutual

/-- `json.dumps(x, ensure_ascii=False)`. -/
def jsonDumps : Json → String
  | Json.null => "null"
  | Json.bool true => "true"
  | Json.bool false => "false"
  | Json.num t => String.mk t
  | Json.str s => "\"" ++ String.mk s ++ "\""
  | Json.arr xs => "[" ++ jsonDumpsElems xs ++ "]"
  | Json.obj kvs => "\x7b" ++ jsonDumpsPairs kvs ++ "\x7d"

def jsonDumpsElems : List Json → String
  | [] => ""
  | [x] => jsonDumps x
  | x :: rest => jsonDumps x ++ ", " ++ jsonDumpsElems rest

def jsonDumpsPairs : List (List Char × Json) → String
  | [] => ""
  | [(k, v)] => "\"" ++ String.mk k ++ "\": " ++ jsonDumps v
  | (k, v) :: rest =>
    "\"" ++ String.mk k ++ "\": " ++ jsonDumps v ++ ", " ++ jsonDumpsPairs rest

end

/-! ## `SearchService.search_destination_image` (ImageResolver)

search.py:269-427 with `search_unsplash_image` (33-75),
`get_amap_static_image` (77-108) and `_verify_image_accessible`
(244-267).  Network behaviour is an `ImageEnv`. -/

/-- One result dict from the DDGS image search. -/
structure DDGSResult where
  image : Option String
  thumbnail : Option String

/-- Status and `content-type` header of a `HEAD` probe. -/
structure HeadResponse where
  status : Nat
  contentType : String

/-- The resolver's external world: configuration keys (`""` means
unconfigured, matching `os.getenv(.., "")`) and network outcomes.
`search_web` itself absorbs provider failures into `[]`
(ddgs_utils.py), so the DDGS outcome is a plain list. -/
structure ImageEnv where
  unsplashKey : String
  unsplashOutcome : Except Unit (List String)
  amapWebKey : String
  ddgsResults : List DDGSResult
  head : String → Except Unit HeadResponse

/-- `SearchService.search_unsplash_image`: `none` when the key is
unconfigured, the call raises, the response is non-200, or the result
list is empty; otherwise the first photo's regular URL. -/
def searchUnsplashImage (env : ImageEnv) : Option String :=
  if env.unsplashKey = "" then none
  else
    match env.unsplashOutcome with
    | Except.error _ => none
    | Except.ok [] => none
    | Except.ok (u :: _) => some u

/-- `k=v` query-string assembly (`urlencode`; percent-escaping elided —
no claim constrains the encoded bytes). -/
def urlParams (ps : List (String × String)) : String :=
  joinStrSep "&" (ps.map (fun p => p.1 ++ "=" ++ p.2))

/-- `f"{m.get('lng', '')},{m.get('lat', '')}"` for one marker dict; a
non-dict marker raises (`AttributeError`). -/
def markerLngLat (m : Json) : Except Unit String :=
  match m with
  | Json.obj kvs =>
    Except.ok (pyStrOpt (objGet kvs "lng".data) ++ "," ++
      pyStrOpt (objGet kvs "lat".data))
  | _ => Except.error ()

/-- `SearchService.get_amap_static_image` (search.py:77-108). -/
def getAmapStaticImage (key : String) (location : String)
    (markers : List Json) : Except Unit String := do
  let baseParams := [("location", location), ("zoom", "12"),
    ("size", "750*500"), ("scale", "2"), ("key", key)]
  let ps ←
    if markers.length > 0 then do
      let strs ← (markers.take 5).mapM markerLngLat
      pure (baseParams ++
        [("markers", "mid,0x2CB67D,A:" ++ joinStrSep "|" strs)])
    else pure baseParams
  pure ("https://restapi.amap.com/v3/staticmap?" ++ urlParams ps)

/-- The domain blacklist of the DDGS tier (search.py:349-354). -/
def invalidDomains : List String :=
  ["mmbiz.qpic.cn", "kuaizhan.com", "qpic.cn", "sinaimg.cn",
   "dmjnb.com", "bdimg.com", "baidustatic.com", "sogoucdn.com",
   "360buyimg.com", "alicdn.com", "ctrip.com", "mafengwo.net",
   "duitang.com", "huaban.com", "nipic.com", "58pic.com", "zcool.cn"]

/-- The extension/domain allowlist of the DDGS tier
(search.py:368-374). -/
def validPatterns : List String :=
  [".jpg", ".jpeg", ".png", ".webp", ".gif",
   "unsplash.com", "pexels.com", "pixabay.com",
   "cloudfront.net", "amazonaws.com",
   "googleusercontent.com", "flickr.com", "staticflickr.com",
   "wikimedia.org", "wikipedia.org"]

/-- `sub in s` on `String`. -/
def strContains (hay sub : String) : Bool := containsSub hay.data sub.data

/-- `s.startswith(pre)`. -/
def strStartsWith (s pre : String) : Bool := pre.data.isPrefixOf s.data

/-- Some blacklisted domain occurs in the URL. -/
def isBlacklisted (u : String) : Bool :=
  invalidDomains.any (fun d => strContains u d)

/-- Some allowlisted pattern occurs in the lower-cased URL. -/
def matchesValidPattern (u : String) : Bool :=
  validPatterns.any (fun p => strContains (String.mk (lowerStr u.data)) p)

/-- `result.get("image") or result.get("thumbnail")` followed by the
`if not image_url` falsiness check: the chosen URL, already known
non-empty. -/
def effectiveUrl (r : DDGSResult) : Option String :=
  match r.image with
  | some s =>
    if s ≠ "" then some s
    else
      (match r.thumbnail with
       | some t => if t ≠ "" then some t else none
       | none => none)
  | none =>
    match r.thumbnail with
    | some t => if t ≠ "" then some t else none
    | none => none

/-- The three filters of the DDGS tier in source order: HTTPS, not
blacklisted, matches the allowlist. -/
def passesFilter (u : String) : Bool :=
  strStartsWith u "https://" && !isBlacklisted u && matchesValidPattern u

/-- The candidate-collection loop (search.py:331-388): keep filtered
URLs in order, stopping as soon as 5 have been collected (`count` is
`len(valid_images)` so far). -/
def collectCandidates : List DDGSResult → Nat → List String
  | [], _ => []
  | r :: rest, count =>
    match effectiveUrl r with
    | none => collectCandidates rest count
    | some u =>
      if passesFilter u then
        if count + 1 ≥ 5 then [u]
        else u :: collectCandidates rest (count + 1)
      else collectCandidates rest count

/-- `SearchService._verify_image_accessible`: `true` only for a 200
response whose content-type contains `image/` or `octet-stream`; a
raised probe is `false`. -/
def verifyImageAccessible (head : String → Except Unit HeadResponse)
    (u : String) : Bool :=
  match head u with
  | Except.error _ => false
  | Except.ok resp =>
    decide (resp.status = 200) &&
    (strContains (String.mk (lowerStr resp.contentType.data)) "image/" ||
     strContains (String.mk (lowerStr resp.contentType.data)) "octet-stream")

/-- The verification loop: first candidate that verifies. -/
def firstVerified (verify : String → Bool) : List String → Option String
  | [] => none
  | u :: rest => if verify u then some u else firstVerified verify rest

/-- Strategy 3 of `search_destination_image` (the DDGS web-search
tier). -/
def ddgsTierSearch (env : ImageEnv) : Option String :=
  let cands := collectCandidates env.ddgsResults 0
  if cands.isEmpty then none
  else firstVerified (verifyImageAccessible env.head) cands

/-- Which tiers were actually invoked, in order. -/
inductive Tier where
  | unsplash
  | staticMap
  | ddgs
  deriving DecidableEq

/-- Tiers 2-3 of `search_destination_image` (search.py:304-427),
reached after the premium tier produced no truthy URL; the log still
records the premium tier, which always runs first.  Tier 2 (static map)
runs only when a truthy `location` was supplied and the Amap web key is
configured; tier 3 (DDGS) runs when the earlier tiers produced
nothing. -/
def searchLowerTiers (env : ImageEnv) (location : Option String)
    (markers : List Json) : Option String × List Tier :=
  match location with
  | some l =>
    if l ≠ "" ∧ env.amapWebKey ≠ "" then
      match getAmapStaticImage env.amapWebKey l markers with
      | Except.ok url => (some url, [Tier.unsplash, Tier.staticMap])
      | Except.error _ =>
        (ddgsTierSearch env, [Tier.unsplash, Tier.staticMap, Tier.ddgs])
    else (ddgsTierSearch env, [Tier.unsplash, Tier.ddgs])
  | none => (ddgsTierSearch env, [Tier.unsplash, Tier.ddgs])

/-- `SearchService.search_destination_image` (search.py:269-427),
instrumented with the list of tiers invoked.  Tier 1 (Unsplash) always
runs, and its result is used only when truthy (`if unsplash_url:` at
search.py:296): an empty-string premium URL falls through to the lower
tiers exactly like a `None`. -/
def searchDestinationImage (env : ImageEnv) (destination : String)
    (location : Option String) (markers : List Json) :
    Option String × List Tier :=
  match searchUnsplashImage env with
  | some url =>
    if url ≠ "" then (some url, [Tier.unsplash])
    else searchLowerTiers env location markers
  | none => searchLowerTiers env location markers

/-- Probe stub returning a 200 `application/octet-stream` response for
every URL. -/
def c6HeadStub : String → Except Unit HeadResponse :=
  fun _ => Except.ok { status := 200, contentType := "application/octet-stream" }

/-- Concrete resolver environment for the web-search-tier witness: no
premium key, two DDGS results (one HTTPS and allowlisted, one plain
HTTP), and a probe that accepts only the first URL. -/
def c6Env : ImageEnv :=
  { unsplashKey := "", unsplashOutcome := Except.error (), amapWebKey := "",
    ddgsResults :=
      [{ image := some "https://img.example.com/a.jpg", thumbnail := none },
       { image := some "http://x.com/b.jpg", thumbnail := none }],
    head := fun u =>
      if u = "https://img.example.com/a.jpg" then
        Except.ok { status := 200, contentType := "image/jpeg" }
      else Except.error () }

/-- Environment with the premium tier configured and succeeding. -/
def c5Env : ImageEnv :=
  { unsplashKey := "k",
    unsplashOutcome := Except.ok ["https://images.unsplash.com/photo1"],
    amapWebKey := "ak", ddgsResults := [], head := fun _ => Except.error () }

/-- Environment with the premium tier unconfigured but the map key
configured. -/
def c5EnvB : ImageEnv :=
  { unsplashKey := "", unsplashOutcome := Except.ok [], amapWebKey := "ak",
    ddgsResults := [], head := fun _ => Except.error () }

/-- Environment with the premium tier configured but returning an
EMPTY url: falsy, so the resolver must fall through. -/
def c5EnvC : ImageEnv :=
  { unsplashKey := "k", unsplashOutcome := Except.ok [""], amapWebKey := "",
    ddgsResults := [], head := fun _ => Except.error () }

/-! ## POIs and the ContextGatherer attraction merge

`AmapClient._parse_pois` (amap_mcp.py:438-455) produces dicts with
these fixed keys; `TripPlanner._gather_context_with_intent`
(planner.py:276-285) merges and deduplicates them. -/

/-- A parsed POI (amap_mcp.py `_parse_pois`).  `rating`/`cost` come
from `biz_ext` and may be arbitrary JSON. -/
structure POI where
  id : String
  name : String
  address : String
  location : String
  type : String
  tel : String
  rating : Option Json
  cost : Option Json

/-- The dedup loop of planner.py:278-283: walk the concatenated list,
keeping each element whose name has not been seen. -/
def dedupByName : List POI → List String → List POI
  | [], _ => []
  | a :: rest, seen =>
    if a.name ∈ seen then dedupByName rest seen
    else a :: dedupByName rest (a.name :: seen)

/-- planner.py:277-285: concatenate the specific-place results with the
keyword results, deduplicate by name (first occurrence wins), truncate
to 15. -/
def mergeAttractions (specific general : List POI) : List POI :=
  (dedupByName (specific ++ general) []).take 15

/-- A POI with only a name (other fields empty), for witnesses. -/
def poiNamed (nm : String) : POI :=
  { id := "", name := nm, address := "", location := "", type := "",
    tel := "", rating := none, cost := none }

/-- Specific-place search results for the C1 witness. -/
def c1s : List POI := [poiNamed "西湖", poiNamed "灵隐寺"]

/-- Keyword search results for the C1 witness (sharing the name 西湖
with `c1s`). -/
def c1g : List POI := [poiNamed "西湖", poiNamed "雷峰塔"]

/-! ## `DuckDBService` plans: share codes (database.py)

Only the columns the share-code invariant concerns are modelled; the
table is a list of rows, newest first. -/

/-- The share-code-relevant columns of a `plans` row. -/
structure PlanRow where
  id : String
  userId : String
  isPublic : Bool
  shareCode : Option String

/-- `SELECT * FROM plans WHERE id = ?` + `fetchone()`. -/
def findRow (db : List PlanRow) (planId : String) : Option PlanRow :=
  db.find? (fun r => r.id == planId)

/-- `DuckDBService.create_plan` (database.py:314-339): the inserted row
gets a fresh opaque share code exactly when created public
(`share_code = secrets.token_urlsafe(6) if is_public else None`).
Returns the new table and the row the method returns. -/
def createPlan (db : List PlanRow) (freshId freshCode userId : String)
    (isPublic : Bool) : List PlanRow × PlanRow :=
  let row : PlanRow :=
    { id := freshId, userId := userId, isPublic := isPublic,
      shareCode := if isPublic then some freshCode else none }
  (row :: db, row)

/-- `DuckDBService._has_share_code` (database.py:464-469). -/
def hasShareCode (db : List PlanRow) (planId : String) : Bool :=
  match findRow db planId with
  | some row => row.shareCode.isSome
  | none => false

/-- `DuckDBService.update_plan` (database.py:407-435) restricted to the
modelled columns.  `isPublicArg` is `kwargs.get('is_public')` (absent /
set); `hasOtherUpdates` records whether any other allowed non-None
field is in `kwargs` (so the early-return on an empty update dict is
faithful).  A fresh share code is added exactly when the update sets
`is_public` truthy and the plan has no code yet; the SQL `UPDATE`
touches only rows matching both the plan id and the user id. -/
def updatePlan (db : List PlanRow) (planId userId : String)
    (isPublicArg : Option Bool) (hasOtherUpdates : Bool)
    (freshCode : String) : List PlanRow :=
  if isPublicArg.isNone && !hasOtherUpdates then db
  else
    let wantPublic := match isPublicArg with
      | some true => true
      | _ => false
    let assignCode := wantPublic && !(hasShareCode db planId)
    db.map (fun row =>
      if row.id == planId && row.userId == userId then
        { row with
          isPublic := (match isPublicArg with
            | some b => b
            | none => row.isPublic),
          shareCode := if assignCode then some freshCode else row.shareCode }
      else row)

/-- A stored private plan without a share code, for the C9 witness. -/
def c9Row : PlanRow :=
  { id := "p1", userId := "u1", isPublic := false, shareCode := none }

/-! ## Python truthiness, join, slicing -/

/-- A JSON number token denoting zero (mantissa digits all `0`). -/
def numTokenIsZero (t : List Char) : Bool :=
  (t.takeWhile (fun c => c ≠ 'e' ∧ c ≠ 'E')).all
    (fun c => c = '0' ∨ c = '-' ∨ c = '.' ∨ c = '+')

/-- Python truthiness of a decoded JSON value. -/
def jsonTruthy : Json → Bool
  | Json.null => false
  | Json.bool b => b
  | Json.num t => !(numTokenIsZero t)
  | Json.str s => !s.isEmpty
  | Json.arr xs => !xs.isEmpty
  | Json.obj kvs => !kvs.isEmpty

/-- Truthiness of `d.get(k)`. -/
def optTruthy : Option Json → Bool
  | some j => jsonTruthy j
  | none => false

/-- `d.get(k, default)` rendered into an f-string. -/
def pyStrD (o : Option Json) (d : String) : String :=
  match o with
  | some v => pyStr v
  | none => d

/-- `sep.join(x)` on a decoded JSON value: joins a list of strings, the
characters of a string, or the keys of a dict; anything else (or a
non-string element) raises `TypeError`. -/
def pyJoin (sep : String) : Json → Except Unit String
  | Json.arr xs =>
    (xs.mapM (fun j => match j with
      | Json.str s => Except.ok (String.mk s)
      | _ => Except.error ())).map (joinStrSep sep)
  | Json.str s =>
    Except.ok (joinStrSep sep (s.map (fun c => String.mk [c])))
  | Json.obj kvs =>
    Except.ok (joinStrSep sep (kvs.map (fun p => String.mk p.1)))
  | _ => Except.error ()

/-- `x[:n]` as an item list: lists and strings slice, anything else
raises `TypeError`. -/
def pySliceJson : Json → Nat → Except Unit (List Json)
  | Json.arr xs, n => Except.ok (xs.take n)
  | Json.str s, n =>
    Except.ok ((s.take n).map (fun c => Json.str [c]))
  | _, _ => Except.error ()

/-! ## The gathered context bundle

The `context` dict of `TripPlanner._gather_context_with_intent`:
`attractions`/`food`/`hotels` are always set (possibly empty — the
builder only tests truthiness, so an absent key and an empty list are
indistinguishable); `weather` and `photo_spots` are set only on
success. -/

structure Context where
  weather : Option Json
  attractions : List POI
  food : List POI
  hotels : List POI
  photoSpots : Option (List POI)
  summary : String
  intent : Json

/-! ## `TripPlanner._build_prompt_with_intent` (PromptBuilder)

planner.py:358-535 and `_build_travelogue_prompt` (730-815).  The
template text below is transcribed verbatim from the source (including
its mojibake `�` bullets).  A raised `TypeError`/`AttributeError`
(joining non-strings, attribute access on a non-dict) is
`Except.error ()`.  The `random.choice` calls of the travelogue mode
are the `openIdx`/`personaIdx` selectors. -/

/-- `"、".join(request.preferences) if request.preferences else
"综合体验"`. -/
def prefsStr (req : PlanRequest) : String :=
  if req.preferences.isEmpty then "综合体验"
  else joinStrSep "、" req.preferences

/-- The transport-mode phrasing dict (planner.py:381-385); `bicycling`
is absent from the dict, so it falls to the default. -/
def transportDescStr (req : PlanRequest) : String :=
  match req.transportMode with
  | TransportMode.walking => "步行为主"
  | TransportMode.driving => "自驾出行"
  | TransportMode.transit => "公共交通"
  | TransportMode.bicycling => "灵活安排"

/-- `budget_map.get(request.budget_level, request.budget_level)`. -/
def budgetMapGet (lv : String) : String :=
  if lv = "low" then "穷游省钱"
  else if lv = "medium" then "舒适性价比"
  else if lv = "high" then "轻奢品质"
  else lv

def budgetStrOf (req : PlanRequest) : String :=
  match req.budgetLevel with
  | some lv => if lv = "" then "" else "\n- 💰 预算偏好：" ++ budgetMapGet lv
  | none => ""

def dateStrOf (req : PlanRequest) : String :=
  match req.startDate with
  | some d => if d = "" then "" else "\n- 📅 出发日期：" ++ d
  | none => ""

def descStrOf (req : PlanRequest) : String :=
  match req.description with
  | some d => if d = "" then "" else "\n- 📝 详细需求：" ++ d
  | none => ""

/-- The intent-summary block (planner.py:366-378). -/
def intentSummaryText (intent : Json) : Except Unit String := do
  match intent with
  | Json.obj kvs => do
    let p1 ←
      if optTruthy (objGet kvs "specific_places".data) then do
        let s ← pyJoin ", " ((objGet kvs "specific_places".data).getD Json.null)
        pure ["用户明确想去：" ++ s]
      else pure []
    let p2 ←
      if optTruthy (objGet kvs "must_eat".data) then do
        let s ← pyJoin ", " ((objGet kvs "must_eat".data).getD Json.null)
        pure ["用户想吃：" ++ s]
      else pure []
    let p3 :=
      if optTruthy (objGet kvs "travel_style".data) then
        ["旅行风格：" ++ pyStrOpt (objGet kvs "travel_style".data)]
      else []
    let p4 ←
      if optTruthy (objGet kvs "special_needs".data) then do
        let s ← pyJoin ", " ((objGet kvs "special_needs".data).getD Json.null)
        pure ["特殊需求：" ++ s]
      else pure []
    let p5 :=
      if optTruthy (objGet kvs "avoid_crowds".data) then
        ["用户希望避开人多的地方"]
      else []
    let parts := p1 ++ p2 ++ p3 ++ p4 ++ p5
    pure (if parts.isEmpty then "无特殊要求" else joinStrSep "\n" parts)
  | _ => Except.error ()

/-- `f"{f.get('rating', '暂无')}"` for a POI. -/
def ratingStr (p : POI) : String :=
  match p.rating with
  | some v => pyStr v
  | none => "暂无"

def attractionsInfoStr (ctx : Context) : String :=
  if ctx.attractions.isEmpty then ""
  else "\n\n**已查询到的热门景点（可参考）：**\n" ++
    joinStrSep ", " ((ctx.attractions.take 10).map POI.name)

def foodInfoStr (ctx : Context) : String :=
  if ctx.food.isEmpty then ""
  else "\n\n**当地热门餐厅（可参考）：**\n" ++
    joinStrSep ", "
      ((ctx.food.take 8).map (fun f => f.name ++ "(" ++ ratingStr f ++ "分)"))

def hotelInfoStr (ctx : Context) : String :=
  if ctx.hotels.isEmpty then ""
  else "\n\n**推荐住宿区域/酒店：**\n" ++
    joinStrSep ", " ((ctx.hotels.take 5).map POI.name)

def photoInfoStr (ctx : Context) : String :=
  match ctx.photoSpots with
  | some l =>
    if l.isEmpty then ""
    else "\n\n**拍照打卡点：**\n" ++ joinStrSep ", " ((l.take 5).map POI.name)
  | none => ""

/-- The weather paragraph of the planning template
(planner.py:427-443): `weather_info` is built only when the weather
dict carries a truthy `lives` key, `weather_tips` only when
`forecasts[0]` is a dict with a truthy `casts` key.  Attribute access
on non-dict values raises. -/
def weatherInfoTips (w : Json) (days : Nat) : Except Unit (String × String) := do
  match w with
  | Json.obj kvs => do
    let info ←
      if optTruthy (objGet kvs "lives".data) then do
        let lv := (objGet kvs "lives".data).getD Json.null
        let live := (match lv with
          | Json.arr xs => xs.headD Json.null
          | other => other)
        match live with
        | Json.obj lkv =>
          pure ("当前天气：" ++ pyStrD (objGet lkv "weather".data) "未知" ++
            "，温度：" ++ pyStrD (objGet lkv "temperature".data) "未知" ++
            "℃，湿度：" ++ pyStrD (objGet lkv "humidity".data) "未知" ++
            "%，风向：" ++ pyStrD (objGet lkv "winddirection".data) "未知" ++ "风")
        | _ => Except.error ()
      else pure ""
    let tips ←
      if optTruthy (objGet kvs "forecasts".data) then
        match (objGet kvs "forecasts".data).getD Json.null with
        | Json.arr (f0 :: _) => do
          let fl := (match f0 with
            | Json.obj fkv => (objGet fkv "casts".data).getD (Json.arr [])
            | _ => Json.arr [])
          if jsonTruthy fl then do
            let items ← pySliceJson fl days
            let strs ← items.mapM (fun f =>
              match f with
              | Json.obj fkv =>
                Except.ok (pyStrOpt (objGet fkv "date".data) ++ " " ++
                  pyStrOpt (objGet fkv "dayweather".data) ++ " " ++
                  pyStrOpt (objGet fkv "nighttemp".data) ++ "~" ++
                  pyStrOpt (objGet fkv "daytemp".data) ++ "℃")
              | _ => Except.error ())
            pure ("未来天气预报：" ++ joinStrSep "；" strs)
          else pure ""
        | _ => pure ""
      else pure ""
    pure (info, tips)
  | _ => Except.error ()

/-- Concatenation of the pieces of an f-string. -/
def concatAll : List String → String
  | [] => ""
  | x :: rest => x ++ concatAll rest

/-- The pieces of the weather paragraph of the planning template. -/
def weatherSectionStr (info tips : String) : String :=
  if info ≠ "" ∨ tips ≠ "" then
    concatAll
    ["\n**🌤️ 天气情况与出行建议：**\n",
   info,
   "\n",
   tips,
   "\n\n请在攻略开头根据以上天气信息，给出穿衣建议、防晒/防雨提醒、以及是否适合户外活动的建议。\n\n"]
  else ""

/-- The pieces, in order, of the planning-mode template f-string
(planner.py:461-533), transcribed verbatim. -/
def planningPromptPieces (req : PlanRequest)
    (wSec intentText prefs tDesc bStr dStr descStr aInfo fInfo hInfo pInfo : String) : List String :=
  ["你是一位经验丰富、亲切专业的旅行规划师，请为游客规划 ",
   req.destination,
   " ",
   toString req.days,
   " 天的旅行攻略。\n",
   wSec,
   "\n**用户需求分析：**\n",
   intentText,
   "\n\n**基本信息：**\n- 📍 目的地：",
   req.destination,
   "\n- 📅 天数：",
   toString req.days,
   " 天\n- 💝 偏好：",
   prefs,
   "\n- 🚗 出行方式：",
   tDesc,
   bStr,
   dStr,
   descStr,
   "\n",
   aInfo,
   fInfo,
   hInfo,
   pInfo,
   "\n\n**写作风格要求：**\n- 以专业导游的口吻，亲切但不失专业\n- 使用\"您\"称呼游客，给出贴心建议\n- 适当使用emoji增加可读性 🎉✨🔥\n- 推荐要具体实用，说明景点特色和游玩要点\n- 提醒注意事项和避坑指南\n- 使用标记符号：\n  · 📍 地点  · 💰 费用  · ⭐ 推荐指数\n  · 🔥 必去  · 💡 小贴士  · ⚠️ 注意事项\n  · 📸 拍照点  · 🍜 美食  · 🏨 住宿  · 🚇 交通\n- 标题用【】包裹，如【Day1 ",
   req.destination,
   "初印象】\n- 段落清晰，阅读舒适\n\n**交通信息要求（重要！）：**\n每个景点之间必须给出详细的交通指引：\n- � 地铁：具体到「X号线」，在「XX站」下车，从「X出口」出\n- � 公交：具体到「X路/X路」公交车，在「XX站」上下车\n- � 步行：标注大约步行时间，如「步行约10分钟」\n- � 打车：标注预估费用和时间，如「打车约15分钟，费用20-30元」\n- 示例格式：\n  「🚇 交通：乘地铁1号线到龙翔桥站，A出口出站后步行5分钟即到」\n  「� 交通：乘7路/K7路公交到断桥站下车」\n\n**规划要求：**\n1. **优先满足用户明确提到的地点和需求**\n2. 路线合理，同一区域的景点安排在一起，避免来回折腾\n3. 每天安排3-4个主要景点，节奏适中，留有休息时间\n4. 每个景点标注：门票价格、建议游玩时长、最佳游玩时间\n5. 🍜 推荐当地特色美食和餐厅，标注人均价格和招牌菜\n6. 📸 标注拍照打卡点和最佳拍摄时间\n7. 💰 每天末尾预估当日花费\n8. ⚠️ 提醒注意事项（如提前预约、穿着建议、防晒防雨等）\n9. 💡 给出实用的本地tips和省钱攻略\n\n**时间安排：**\n- 用大致时间段：「上午」「中午」「下午」「傍晚」「晚上」\n- 或自然表达：「早起」「午后」「黄昏」「夜间」\n\n**输出格式示例：**\n【Day1 ",
   req.destination,
   "初印象】\n\n📍 **上午 | 景点名称** ⭐⭐⭐⭐⭐\n🔥 推荐理由：xxx\n💰 门票：XX元 | ⏰ 建议游玩：2小时\n📸 拍照点：xxx\n💡 小贴士：xxx\n\n🚇 **交通**：乘地铁X号线到XX站，X出口步行X分钟\n\n🍜 **中午 | 午餐推荐**：餐厅名称\n📍 地址：xxx\n💰 人均：XX元 | 🌟 招牌菜：xxx\n\n📍 **下午 | 景点名称** ⭐⭐⭐⭐\n...\n\n💰 **今日预估花费**：约XXX元\n\n————————\n\n",
   "请生成详细的行程攻略，最后附上JSON格式的结构化数据（用```json```包裹）。"]

/-- The planning-mode prompt. -/
def planningPrompt (req : PlanRequest)
    (wSec intentText prefs tDesc bStr dStr descStr aInfo fInfo hInfo pInfo : String) : String :=
  concatAll (planningPromptPieces req wSec intentText prefs tDesc bStr dStr descStr aInfo fInfo hInfo pInfo)

/-- The ten opening styles of the travelogue mode (planner.py:736-747). -/
def openingStyles (req : PlanRequest) : List String :=
  [concatAll ["刚从", req.destination, "回来！趁着记忆还热乎，赶紧把这", toString req.days, "天的行程整理出来分享给大家～"],
   concatAll ["终于把", req.destination, "之旅的攻略整理好了！这次", toString req.days, "天的旅程真的太难忘了，必须记录下来！"],
   concatAll ["去了一趟", req.destination, "，被彻底种草了！", toString req.days, "天玩下来，感觉还没玩够，先把这次的经验分享给你们～"],
   concatAll ["心心念念的", req.destination, "终于去成了！", toString req.days, "天行程安排得明明白白，现在来交作业啦～"],
   concatAll ["上周刚结束的", req.destination, "之旅，", toString req.days, "天暴走但超值！来给姐妹们避坑+种草～"],
   concatAll ["这次", req.destination, toString req.days, "日游真的是我今年最满意的一次旅行！忍不住要分享给大家～"],
   concatAll ["作为一个去过", req.destination, "三次的人，这次", toString req.days, "天的深度游终于让我摸透了这座城市！"],
   concatAll ["原本只是想去", req.destination, "躺平几天，结果", toString req.days, "天玩得比上班还累（但是很快乐）！"],
   concatAll ["和朋友的", req.destination, toString req.days, "日游圆满结束！这份攻略请收好，亲测有效～"],
   concatAll ["一直想去", req.destination, "，这次终于成行！", toString req.days, "天的行程安排分享给同样想去的朋友～"]]

/-- The eight personas of the travelogue mode (planner.py:750-759). -/
def travPersonas : List String :=
  ["作为一个资深吃货", "作为一个摄影爱好者", "作为一个喜欢深度游的人", "作为一个预算有限的学生党", "作为一个带娃出行的宝妈", "作为一个喜欢慢节奏的人", "作为一个第一次去的小白", "作为一个本地朋友带着玩的幸运儿"]

/-- The pieces, in order, of the travelogue template f-string
(planner.py:764-813), transcribed verbatim. -/
def traveloguePromptPieces (req : PlanRequest)
    (opening persona prefs fInfo hInfo : String) : List String :=
  ["你是一个真实的小红书旅行博主，请以第一人称写一篇",
   req.destination,
   toString req.days,
   "天游记风格的攻略。\n\n**重要：这是一篇\"已经发生\"的旅行分享，不是未来规划！**\n\n**开头请使用这个风格（可以稍作修改）：**\n\"",
   opening,
   "\"\n\n**写作人设：**\n",
   persona,
   "，分享自己真实的旅行体验。\n\n**写作风格要求（小红书风格）：**\n- 用第一人称\"我\"来写，像是在跟闺蜜/好友聊天分享\n- 大量使用emoji表情符号 🎉✨🔥💯😍🥰\n- 使用小红书常见的标记符号：\n  · 📍 标注地点\n  · 💰 标注价格/费用\n  · ⭐ 标注推荐指数（⭐⭐⭐⭐⭐）\n  · 🔥 标注热门/必去\n  · 💡 标注小贴士\n  · ⚠️ 标注避坑提醒\n  · 📸 标注拍照点\n  · 🍜 标注美食\n- 用「」『』等符号突出重点\n- 标题用【】包裹，如【Day1】【必吃美食】\n- 适当使用分割线 ———— 或 ·····\n- 要有真实感，可以说\"我们当时...\"、\"到了才发现...\"、\"幸好提前...\"\n- 分享真实的感受，比如\"比想象中更美\"、\"有点失望\"、\"意外惊喜\"\n- 可以吐槽一些小问题，增加真实感\n- 推荐的店要说\"我吃了xxx，味道...\"而不是\"推荐xxx\"\n\n**时间描述要求：**\n- 不要写精确到分钟的时间如\"9:00\"、\"14:30\"\n- 用大致时间段，如\"上午\"、\"中午\"、\"下午\"、\"傍晚\"、\"晚上\"等等\n- 或用自然表达如\"早起\"、\"午后\"、\"黄昏\"、\"睡前\"等等\n\n**旅行信息：**\n- 📍 目的地：",
   req.destination,
   "\n- 📅 天数：",
   toString req.days,
   " 天\n- 💝 主题偏好：",
   prefs,
   "\n",
   fInfo,
   hInfo,
   "\n\n**内容结构：**\n1. 开头引入（用上面的风格）+ 行程概览\n2. 💡 行前准备小tips\n3. 每天的详细行程（【Day1】【Day2】...）\n4. 🍜 美食推荐（要说自己吃了什么，标注人均💰）\n5. ⚠️ 踩坑提醒（真实遇到的问题）\n6. ✨ 总结和建议\n\n",
   "请生成完整的游记攻略，最后附上JSON格式的结构化数据（用```json```包裹）。"]

/-- The travelogue-mode prompt. -/
def traveloguePrompt (req : PlanRequest)
    (opening persona prefs fInfo hInfo : String) : String :=
  concatAll (traveloguePromptPieces req opening persona prefs fInfo hInfo)

/-- `random.choice(l)` with an injected selector index. -/
def chooseFrom (l : List String) (i : Nat) : String := l.getD (i % l.length) ""

/-- `TripPlanner._build_prompt_with_intent`. -/
def buildPromptWithIntent (req : PlanRequest) (ctx : Context) (intent : Json)
    (mode : String) (openIdx personaIdx : Nat) : Except Unit String := do
  let prefs := prefsStr req
  let intentText ← intentSummaryText intent
  let tDesc := transportDescStr req
  let bStr := budgetStrOf req
  let dStr := dateStrOf req
  let descStr := descStrOf req
  let aInfo := attractionsInfoStr ctx
  let fInfo := foodInfoStr ctx
  let hInfo := hotelInfoStr ctx
  let pInfo := photoInfoStr ctx
  let wit ←
    (match ctx.weather with
     | some w => weatherInfoTips w req.days
     | none => Except.ok ("", ""))
  if mode == "travelogue" then
    pure (traveloguePrompt req (chooseFrom (openingStyles req) openIdx)
      (chooseFrom travPersonas personaIdx) prefs fInfo hInfo)
  else
    pure (planningPrompt req (weatherSectionStr wit.1 wit.2) intentText prefs
      tDesc bStr dStr descStr aInfo fInfo hInfo pInfo)


/-- `sub` occurs verbatim inside `s` ("is embedded"). -/
def sInfix (sub s : String) : Prop := ∃ l r, s = l ++ sub ++ r

/-- A weather value of the exact shape `AmapClient.get_weather` returns:
the current conditions under `live` and the forecast casts directly
under `forecasts` (amap_mcp.py:274-280), with non-empty current
data and one forecast entry. -/
def c8Weather : Json :=
  Json.obj [
    ("live".data, Json.obj [
      ("weather".data, Json.str "晴".data),
      ("temperature".data, Json.str "25".data)]),
    ("forecasts".data, Json.arr [
      Json.obj [
        ("date".data, Json.str "2026-10-12".data),
        ("dayweather".data, Json.str "晴".data),
        ("daytemp".data, Json.str "25".data),
        ("nighttemp".data, Json.str "18".data)]])]

/-- A gathered context carrying the `get_weather`-shaped weather. -/
def c8CtxW : Context :=
  { weather := some c8Weather, attractions := [poiNamed "西湖"], food := [],
    hotels := [], photoSpots := none, summary := "", intent := Json.obj [] }

/-- The same context without any weather at all. -/
def c8Ctx0 : Context :=
  { weather := none, attractions := [poiNamed "西湖"], food := [],
    hotels := [], photoSpots := none, summary := "", intent := Json.obj [] }

/-- The prompt the builder produces at the witness input (extracted
from the executable builder). -/
def c8BuiltPrompt : String :=
  match buildPromptWithIntent req0 c8CtxW (defaultIntent req0) "planning" 0 0 with
  | Except.ok p => p
  | Except.error _ => ""

/-! ## `TripPlanner._enrich_plan` (PlanEnricher)

planner.py:817-878 on the decoded plan JSON.  The loop mutates POI
dicts in place; the embedding rebuilds them functionally.  `poi.get` /
`day_plan.get` on a non-dict value raises `AttributeError` OUTSIDE the
local `try` blocks (planner.py:830,845,828,859), so a structurally
malformed plan makes the whole enrichment raise, while lookup failures
inside the `try` blocks are swallowed.  Every external lookup is
recorded in a call log. -/

/-- `for x in v`: lists yield elements, strings their characters (as
1-char strings), dicts their keys; other values raise `TypeError`. -/
def iterItems : Json → Except Unit (List Json)
  | Json.arr xs => Except.ok xs
  | Json.str s => Except.ok (s.map (fun c => Json.str [c]))
  | Json.obj kvs => Except.ok (kvs.map (fun p => Json.str p.1))
  | _ => Except.error ()

/-- One recorded outbound lookup of the enricher. -/
inductive EnrichCall where
  | coordSearch (query : Json) (city : String)
  | imageSearch (query : String)
  | routeCalc (origin destination : Json)

/-- Is a call a route computation (the only kind C7 permits on
already-complete POIs)? -/
def EnrichCall.isRoute : EnrichCall → Bool
  | EnrichCall.routeCalc _ _ => true
  | _ => false

/-- The enricher's external world: coordinate search, image search and
route computation outcomes, plus the generated plan id and timestamp
(`uuid4`/`now`). -/
structure EnrichEnv where
  textSearch : Json → String → Except Unit (List POI)
  imageSearch : String → Except Unit (Option String)
  route : Json → Json → Except Unit (List (List Char × Json))
  freshId : String
  now : String

/-- Enrich one POI dict (planner.py:829-854): fill coordinates when
`location` is falsy and an image when `image_url` is falsy.  A missing
`name` key raises inside the `try` (lookup skipped, nothing logged);
search failures and empty results are swallowed.  A non-dict POI
raises. -/
def enrichPoi (env : EnrichEnv) (req : PlanRequest) (poi : Json) :
    Except Unit (Json × List EnrichCall) :=
  match poi with
  | Json.obj kvs =>
    let step1 : List (List Char × Json) × List EnrichCall :=
      if optTruthy (objGet kvs "location".data) then (kvs, [])
      else
        match objGet kvs "name".data with
        | none => (kvs, [])
        | some nameV =>
          (match env.textSearch nameV req.destination with
           | Except.error _ =>
             (kvs, [EnrichCall.coordSearch nameV req.destination])
           | Except.ok [] =>
             (kvs, [EnrichCall.coordSearch nameV req.destination])
           | Except.ok (r :: _) =>
             (upsert (upsert (upsert kvs
                 "location".data (Json.str r.location.data))
                 "address".data (Json.str r.address.data))
                 "id".data (Json.str r.id.data),
              [EnrichCall.coordSearch nameV req.destination]))
    let kvs1 := step1.1
    let step2 : List (List Char × Json) × List EnrichCall :=
      if optTruthy (objGet kvs1 "image_url".data) then (kvs1, [])
      else
        match objGet kvs1 "name".data with
        | none => (kvs1, [])
        | some nameV =>
          let q := req.destination ++ " " ++ pyStr nameV
          (match env.imageSearch q with
           | Except.error _ => (kvs1, [EnrichCall.imageSearch q])
           | Except.ok none => (kvs1, [EnrichCall.imageSearch q])
           | Except.ok (some url) =>
             if url ≠ "" then
               (upsert kvs1 "image_url".data (Json.str url.data),
                [EnrichCall.imageSearch q])
             else (kvs1, [EnrichCall.imageSearch q]))
    Except.ok (Json.obj step2.1, step1.2 ++ step2.2)
  | _ => Except.error ()

/-- Enrich the POIs of one day in order. -/
def enrichPoiList (env : EnrichEnv) (req : PlanRequest) :
    List Json → Except Unit (List Json × List EnrichCall)
  | [] => Except.ok ([], [])
  | p :: rest => do
    let pr ← enrichPoi env req p
    let rr ← enrichPoiList env req rest
    pure (pr.1 :: rr.1, pr.2 ++ rr.2)

/-- The route loop (planner.py:856-876) over the (already enriched)
POI list: for each adjacent pair with truthy locations, compute a route
and merge `{origin, destination, mode}` with the route dict; a missing
`name` key raises inside the `try` after the route call (entry
dropped, call still made); route failures are swallowed; indexing a
non-dict POI raises. -/
def buildRoutes (env : EnrichEnv) (req : PlanRequest) :
    List Json → Except Unit (List Json × List EnrichCall)
  | [] => Except.ok ([], [])
  | [_] => Except.ok ([], [])
  | p1 :: p2 :: rest =>
    match p1, p2 with
    | Json.obj k1, Json.obj k2 =>
      if optTruthy (objGet k1 "location".data) &&
          optTruthy (objGet k2 "location".data) then
        match env.route ((objGet k1 "location".data).getD Json.null)
            ((objGet k2 "location".data).getD Json.null) with
        | Except.error _ =>
          (buildRoutes env req (Json.obj k2 :: rest)).map
            (fun pr => (pr.1,
              EnrichCall.routeCalc ((objGet k1 "location".data).getD Json.null)
                ((objGet k2 "location".data).getD Json.null) :: pr.2))
        | Except.ok routeKvs =>
          match objGet k1 "name".data, objGet k2 "name".data with
          | some n1, some n2 =>
            (buildRoutes env req (Json.obj k2 :: rest)).map
              (fun pr => (Json.obj (routeKvs.foldl
                  (fun acc p => upsert acc p.1 p.2)
                  [("origin".data, n1), ("destination".data, n2),
                   ("mode".data, Json.str req.transportMode.value.data)]) ::
                    pr.1,
                EnrichCall.routeCalc ((objGet k1 "location".data).getD Json.null)
                  ((objGet k2 "location".data).getD Json.null) :: pr.2))
          | _, _ =>
            (buildRoutes env req (Json.obj k2 :: rest)).map
              (fun pr => (pr.1,
                EnrichCall.routeCalc ((objGet k1 "location".data).getD Json.null)
                  ((objGet k2 "location".data).getD Json.null) :: pr.2))
      else buildRoutes env req (Json.obj k2 :: rest)
    | _, _ => Except.error ()

/-- Enrich one day dict: enrich its POIs, compute routes, store the
mutated POI list (only when the `pois` key held a list — a fresh
default list is not written back) and the `routes` list. -/
def enrichDay (env : EnrichEnv) (req : PlanRequest) (day : Json) :
    Except Unit (Json × List EnrichCall) :=
  match day with
  | Json.obj dkv => do
    let poisV := (objGet dkv "pois".data).getD (Json.arr [])
    let items ← iterItems poisV
    let pr ← enrichPoiList env req items
    let rr ← buildRoutes env req pr.1
    let dkv1 := (match objGet dkv "pois".data with
      | some (Json.arr _) => upsert dkv "pois".data (Json.arr pr.1)
      | _ => dkv)
    let dkv2 := upsert dkv1 "routes".data (Json.arr rr.1)
    pure (Json.obj dkv2, pr.2 ++ rr.2)
  | _ => Except.error ()

/-- Enrich the days in order. -/
def enrichDayList (env : EnrichEnv) (req : PlanRequest) :
    List Json → Except Unit (List Json × List EnrichCall)
  | [] => Except.ok ([], [])
  | d :: rest => do
    let dr ← enrichDay env req d
    let rr ← enrichDayList env req rest
    pure (dr.1 :: rr.1, dr.2 ++ rr.2)

/-- `TripPlanner._enrich_plan`: overwrite `id` and `created_at`, then
enrich each day of `daily_plans` (defaulting to an un-written-back
empty list when the key is absent). -/
def enrichPlan (env : EnrichEnv) (plan : Json) (req : PlanRequest) :
    Except Unit (Json × List EnrichCall) :=
  match plan with
  | Json.obj kvs => do
    let kvs1 := upsert (upsert kvs "id".data (Json.str env.freshId.data))
      "created_at".data (Json.str env.now.data)
    let daysV := (objGet kvs1 "daily_plans".data).getD (Json.arr [])
    let items ← iterItems daysV
    let dr ← enrichDayList env req items
    let kvs2 := (match objGet kvs1 "daily_plans".data with
      | some (Json.arr _) => upsert kvs1 "daily_plans".data (Json.arr dr.1)
      | _ => kvs1)
    pure (Json.obj kvs2, dr.2)
  | _ => Except.error ()

/-! ### Observers and well-formedness for enrichment claims -/

/-- The POI dicts of one day (empty for anything malformed). -/
def poisOfDay (day : Json) : List Json :=
  match day with
  | Json.obj dkv =>
    (match objGet dkv "pois".data with
     | some (Json.arr xs) => xs
     | _ => [])
  | _ => []

/-- The day dicts of a plan. -/
def daysOfPlan (plan : Json) : List Json :=
  match plan with
  | Json.obj kvs =>
    (match objGet kvs "daily_plans".data with
     | some (Json.arr ds) => ds
     | _ => [])
  | _ => []

/-- All POI dicts of a plan, in order. -/
def poisOfPlan (plan : Json) : List Json :=
  ((daysOfPlan plan).map poisOfDay).flatten

/-- A day shape on which enrichment cannot raise: an object whose
`pois` (when present) is a list of objects. -/
def wellFormedDay (d : Json) : Bool :=
  match d with
  | Json.obj dkv =>
    (match objGet dkv "pois".data with
     | none => true
     | some (Json.arr ps) => ps.all (fun p =>
         match p with
         | Json.obj _ => true
         | _ => false)
     | some _ => false)
  | _ => false

/-- A plan shape on which enrichment cannot raise: an object whose
`daily_plans` (when present) is a list of well-formed days. -/
def wellFormedPlan (plan : Json) : Bool :=
  match plan with
  | Json.obj kvs =>
    (match objGet kvs "daily_plans".data with
     | none => true
     | some (Json.arr ds) => ds.all wellFormedDay
     | some _ => false)
  | _ => false

/-- A POI that already has a truthy `location` and `image_url`. -/
def poiComplete (p : Json) : Bool :=
  match p with
  | Json.obj kvs =>
    optTruthy (objGet kvs "location".data) &&
    optTruthy (objGet kvs "image_url".data)
  | _ => false

/-- Every POI of the plan is complete. -/
def allPoisComplete (plan : Json) : Bool := (poisOfPlan plan).all poiComplete

/-- A complete POI (truthy location and image) for the C7 witness. -/
def c7Poi1 : Json :=
  Json.obj [("name".data, Json.str "西湖".data),
    ("location".data, Json.str "120.15,30.28".data),
    ("image_url".data, Json.str "https://img.example.com/xh.jpg".data)]

/-- A second complete POI for the C7 witness. -/
def c7Poi2 : Json :=
  Json.obj [("name".data, Json.str "灵隐寺".data),
    ("location".data, Json.str "120.10,30.24".data),
    ("image_url".data, Json.str "https://img.example.com/lys.jpg".data)]

/-- A well-formed plan whose POIs are all complete. -/
def c7Plan : Json :=
  Json.obj [("type".data, Json.str "trip_plan".data),
    ("daily_plans".data, Json.arr [
      Json.obj [("day".data, Json.num "1".data),
        ("pois".data, Json.arr [c7Poi1, c7Poi2])]])]

/-- Enrichment environment whose coordinate and image searches RAISE:
on a complete plan they are never reached. -/
def c7Env : EnrichEnv :=
  { textSearch := fun _ _ => Except.error (),
    imageSearch := fun _ => Except.error (),
    route := fun _ _ => Except.ok
      [("distance".data, Json.num "1200".data),
       ("duration".data, Json.num "900".data),
       ("steps".data, Json.arr [])],
    freshId := "abc12345", now := "2026-10-12T00:00:00" }

/-! ## `TripPlanner._gather_context_with_intent` (ContextGatherer)

planner.py:226-356.  Each sub-query is individually wrapped in
`try/except`, but the iterations/slices of the intent's fields
(planner.py:254,268,295,326) and the `.get` calls on a non-dict intent
are OUTSIDE any `try`, so a malformed intent makes the gather raise. -/

/-- The gatherer's external world. -/
structure GatherEnv where
  weather : Except Unit Json
  geocode : Except Unit Json
  textSearch : String → String → Except Unit (List POI)
  aroundSearch : String → Json → Nat → Except Unit (List POI)

/-- `for item in items: try: results = text_search(query(item), dest);
if results: out.extend(results[:cap]) except: pass`. -/
def searchLoop (env : GatherEnv) (dest : String) (mkQuery : Json → String)
    (cap : Nat) : List Json → List POI
  | [] => []
  | item :: rest =>
    (match env.textSearch (mkQuery item) dest with
     | Except.error _ => []
     | Except.ok rs => rs.take cap) ++ searchLoop env dest mkQuery cap rest

/-- `intent.get(key, [])` then iterate (iteration of a non-iterable
raises). -/
def intentIter (kvs : List (List Char × Json)) (key : String) :
    Except Unit (List Json) :=
  match objGet kvs key.data with
  | none => Except.ok []
  | some v => iterItems v

/-- Json equality with a string literal (`x in ["高", "中"]`). -/
def jsonEqStr (j : Json) (s : String) : Bool :=
  match j with
  | Json.str t => t = s.data
  | _ => false

/-- `TripPlanner._gather_context_with_intent` (planner.py:226-356). -/
def gatherContextWithIntent (env : GatherEnv) (req : PlanRequest)
    (intent : Json) : Except Unit Context := do
  match intent with
  | Json.obj ikv => do
    let weatherRes : Option Json :=
      (match env.weather with
       | Except.error _ => none
       | Except.ok w => some w)
    let cityLocation : Option Json :=
      (match env.geocode with
       | Except.error _ => none
       | Except.ok geo =>
         if jsonTruthy geo then
           match geo with
           | Json.obj gk =>
             (match objGet gk "location".data with
              | some lv => if jsonTruthy lv then some lv else none
              | none => none)
           | _ => none
         else none)
    let places ← intentIter ikv "specific_places"
    let specific := searchLoop env req.destination
      (fun place => req.destination ++ " " ++ pyStr place) 2 places
    let kwItems ←
      (match objGet ikv "search_keywords".data with
       | none => Except.ok [Json.str (req.destination ++ " 景点").data]
       | some v => pySliceJson v 3)
    let general := searchLoop env req.destination (fun kw => pyStr kw) 5 kwItems
    let uniqueA := dedupByName (specific ++ general) []
    let mustEat ← intentIter ikv "must_eat"
    let foodPriority := (objGet ikv "food_priority".data).getD
      (Json.str "中".data)
    let food1 := searchLoop env req.destination
      (fun f => req.destination ++ " " ++ pyStr f) 2 mustEat
    let food2 : List POI :=
      (match cityLocation with
       | some loc =>
         if jsonEqStr foodPriority "高" || jsonEqStr foodPriority "中" then
           match env.aroundSearch "特色菜|本地菜|老字号" loc 5000 with
           | Except.error _ => []
           | Except.ok rs => rs.take 10
         else []
       | none => [])
    let foodList := food1 ++ food2
    let areaItems ←
      (match objGet ikv "suggested_areas".data with
       | none => Except.ok [Json.str req.destination.data]
       | some v => pySliceJson v 2)
    let hotels0 := searchLoop env req.destination
      (fun a => pyStr a ++ " 酒店 住宿") 5 areaItems
    let photoRes : Option (List POI) :=
      if optTruthy (objGet ikv "photo_spots_needed".data) then
        (match env.textSearch (req.destination ++ " 拍照 打卡 网红")
            req.destination with
         | Except.error _ => none
         | Except.ok ps => some ps)
      else none
    let summaryParts :=
      (match env.weather with
       | Except.error _ => []
       | Except.ok w => ["天气信息：" ++ jsonDumps w]) ++
      (if uniqueA.isEmpty then []
       else ["热门景点：" ++ joinStrSep ", " ((uniqueA.take 8).map POI.name)]) ++
      (if foodList.isEmpty then []
       else ["美食推荐：" ++ joinStrSep ", "
         (((foodList.take 5).filter (fun p => p.name ≠ "")).map
           (fun p => p.name ++ "(" ++ ratingStr p ++ "分)"))]) ++
      (if hotels0.isEmpty then []
       else ["推荐住宿：" ++ joinStrSep ", " ((hotels0.take 3).map POI.name)]) ++
      (match photoRes with
       | some ps =>
         if ps.isEmpty then []
         else ["拍照打卡点：" ++ joinStrSep ", " ((ps.take 3).map POI.name)]
       | none => [])
    pure { weather := weatherRes, attractions := uniqueA.take 15,
           food := foodList.take 15, hotels := hotels0.take 10,
           photoSpots := photoRes.map (fun ps => ps.take 5),
           summary := joinStrSep "\n" summaryParts,
           intent := Json.obj ikv }
  | _ => Except.error ()

/-- Iterability of an optional intent field. -/
def iterOk : Option Json → Bool
  | none => true
  | some (Json.arr _) => true
  | some (Json.str _) => true
  | some (Json.obj _) => true
  | some _ => false

/-- Sliceability of an optional intent field. -/
def sliceOk : Option Json → Bool
  | none => true
  | some (Json.arr _) => true
  | some (Json.str _) => true
  | some _ => false

/-- The intent shapes on which the gather cannot raise: a dict whose
`specific_places`/`must_eat` are absent-or-iterable and whose
`search_keywords`/`suggested_areas` are absent-or-sliceable. -/
def intentGatherSafe (intent : Json) : Bool :=
  match intent with
  | Json.obj kvs =>
    iterOk (objGet kvs "specific_places".data) &&
    sliceOk (objGet kvs "search_keywords".data) &&
    iterOk (objGet kvs "must_eat".data) &&
    sliceOk (objGet kvs "suggested_areas".data)
  | _ => false

/-! ## `TripPlanner.create_plan` (the pipeline) -/

/-- The cover-image arguments computed at planner.py:107-124: a center
coordinate string from the first POI of the first entry of the plan's
`days` list (note: the code reads `days`, the day COUNT field, so with
LLM output following the documented schema this is never a list and
both stay empty) and marker location values.  `loc.get` on a non-dict
`location` raises (caught by the surrounding `try`, yielding no cover
lookup at all). -/
def coverArgs (plan : Option Json) : Except Unit (Option String × List Json) := do
  match plan with
  | some (Json.obj pkv) =>
    (match objGet pkv "days".data with
     | some (Json.arr (d0 :: drest)) =>
       if jsonTruthy (Json.arr (d0 :: drest)) then
         match d0 with
         | Json.obj dkv =>
           (match objGet dkv "pois".data with
            | some (Json.arr (p0 :: prest)) =>
              if jsonTruthy (Json.arr (p0 :: prest)) then
                match p0 with
                | Json.obj pk =>
                  (match objGet pk "location".data with
                   | some locV =>
                     if jsonTruthy locV then do
                       let locStr ←
                         (match locV with
                          | Json.obj lk =>
                            Except.ok (pyStrOpt (objGet lk "lng".data) ++ "," ++
                              pyStrOpt (objGet lk "lat".data))
                          | _ => Except.error ())
                       let markers := (d0 :: drest).foldr (fun day acc =>
                         (match day with
                          | Json.obj dk =>
                            (match objGet dk "pois".data with
                             | some (Json.arr ps) =>
                               ((ps.take 3).filter (fun poi =>
                                 match poi with
                                 | Json.obj pkk =>
                                   optTruthy (objGet pkk "location".data)
                                 | _ => false)).filterMap (fun poi =>
                                   match poi with
                                   | Json.obj pkk => objGet pkk "location".data
                                   | _ => none)
                             | _ => [])
                          | _ => []) ++ acc) []
                       pure (some locStr, markers)
                     else pure (none, [])
                   | none => pure (none, []))
                | _ => pure (none, [])
              else pure (none, [])
            | _ => pure (none, []))
         | _ => pure (none, [])
       else pure (none, [])
     | _ => pure (none, []))
  | _ => pure (none, [])

/-- The pipeline's external world. -/
structure PipelineEnv where
  intentChat : Except Unit (List Char)
  genChat : Except Unit (List Char)
  gatherEnv : GatherEnv
  enrichEnv : EnrichEnv
  genRouteMap : List POI → String → Except Unit String
  downloadMap : String → String × String
  coverSearch : String → Option String → List Json → Except Unit (Option String)
  openIdx : Nat
  personaIdx : Nat

/-- The dict `create_plan` returns (planner.py:141-152), restricted to
the fields the claims observe (`context.search_results` is always
`None` on this path: the gather never sets `guides`). -/
structure PlanResult where
  reply : List Char
  plan : Option Json
  routeMapUrl : String
  routeMapBase64 : String
  coverUrl : Option String
  ctxWeather : Option Json
  travelIntent : Json

/-- `TripPlanner.create_plan` (planner.py:26-152).  Unwrapped stages
propagate (`←`); wrapped stages absorb their env's failure. -/
def plannerCreatePlan (env : PipelineEnv) (req : PlanRequest) (mode : String) :
    Except Unit PlanResult := do
  let intent := extractTravelIntent env.intentChat req
  let ctx ← gatherContextWithIntent env.gatherEnv req intent
  let _prompt ← buildPromptWithIntent req ctx intent mode env.openIdx
    env.personaIdx
  let aiResponse ← env.genChat
  let plan ←
    (match parsePlanFromResponse aiResponse with
     | some p => (enrichPlan env.enrichEnv p req).map (fun pr => some pr.1)
     | none => Except.ok none)
  let rm : String × String :=
    if ctx.attractions.isEmpty then ("", "")
    else
      match env.genRouteMap (ctx.attractions.take 5) req.transportMode.value with
      | Except.error _ => ("", "")
      | Except.ok mapUrl =>
        if mapUrl ≠ "" then env.downloadMap mapUrl else ("", "")
  let cover : Option String :=
    (match coverArgs plan with
     | Except.error _ => none
     | Except.ok ca =>
       match env.coverSearch req.destination ca.1 ca.2 with
       | Except.error _ => none
       | Except.ok c => c)
  pure { reply := aiResponse, plan := plan, routeMapUrl := rm.2,
         routeMapBase64 := rm.1, coverUrl := cover,
         ctxWeather := ctx.weather, travelIntent := intent }

/-! ### Concrete pipeline data for the C4 counterexample and witness -/

/-- A gather environment whose weather and geocode calls raise and
whose searches return nothing: every failure inside it is of a kind
the gatherer absorbs. -/
def c4GEnv : GatherEnv :=
  { weather := Except.error (), geocode := Except.error (),
    textSearch := fun _ _ => Except.ok [],
    aroundSearch := fun _ _ _ => Except.ok [] }

/-- A benign enrichment environment (all lookups succeed vacuously). -/
def c4EEnv : EnrichEnv :=
  { textSearch := fun _ _ => Except.ok [],
    imageSearch := fun _ => Except.ok none,
    route := fun _ _ => Except.ok [],
    freshId := "id0", now := "2026-10-12T00:00:00" }

/-- A generation response carrying the `trip_plan` marker whose
`daily_plans` entries are strings, not dicts: `parse_plan_from_response`
accepts it, and `_enrich_plan` then calls `.get` on a string. -/
def c4Resp : String :=
  "好的，以下是计划：\n\x60\x60\x60json\n\x7b\"type\": \"trip_plan\", \"daily_plans\": [\"x\"]\x7d\n\x60\x60\x60"

/-- Pipeline environment for the counterexample: the intent chat raises
(absorbed into the default intent), every gather/route-map/cover
dependency is benign, and the generation chat SUCCEEDS, returning
`c4Resp`. -/
def c4PEnv : PipelineEnv :=
  { intentChat := Except.error (), genChat := Except.ok c4Resp.data,
    gatherEnv := c4GEnv, enrichEnv := c4EEnv,
    genRouteMap := fun _ _ => Except.ok "",
    downloadMap := fun _ => ("", ""),
    coverSearch := fun _ _ _ => Except.ok none,
    openIdx := 0, personaIdx := 0 }

/-- Pipeline environment for the witness: like `c4PEnv` but the
generation chat returns plain prose with no fenced JSON. -/
def c4WEnv : PipelineEnv :=
  { intentChat := Except.error (), genChat := Except.ok "好的".data,
    gatherEnv := c4GEnv, enrichEnv := c4EEnv,
    genRouteMap := fun _ _ => Except.ok "",
    downloadMap := fun _ => ("", ""),
    coverSearch := fun _ _ _ => Except.ok none,
    openIdx := 0, personaIdx := 0 }

/-! ### Append lemmas for the fence scanner

Needed to reason about a response whose first fenced block is followed
by arbitrary further text (claim C10). -/

theorem fenceClose_isPrefixOf_append (l r : List Char)
    (h : fenceClose.isPrefixOf l = true) :
    fenceClose.isPrefixOf (l ++ r) = true := by
  rcases l with _ | ⟨a, _ | ⟨b, _ | ⟨c, t⟩⟩⟩
  · simp [fenceClose, List.isPrefixOf] at h
  · simp [fenceClose, List.isPrefixOf] at h
  · simp [fenceClose, List.isPrefixOf] at h
  · simp only [List.cons_append]
    simpa [fenceClose, List.isPrefixOf] using h

/-- If the closing fence is found inside `a`, appending more text after
`a` does not change what the scanner returns. -/
theorem findClose_append (r : List Char) :
    ∀ (a c : List Char), findClose a = some c → findClose (a ++ r) = some c := by
  intro a
  induction a with
  | nil => intro c h; simp [findClose] at h
  | cons x rest ih =>
    intro c h
    rw [findClose] at h
    by_cases hp : fenceClose.isPrefixOf (x :: rest) = true
    · rw [hp] at h
      simp at h
      have hpf := fenceClose_isPrefixOf_append (x :: rest) r hp
      rw [List.cons_append] at hpf ⊢
      rw [findClose, hpf]
      simp [h]
    · rw [Bool.not_eq_true] at hp
      rw [hp] at h
      simp at h
      obtain ⟨c', hc', rfl⟩ := h
      rcases rest with _ | ⟨y, _ | ⟨z, t⟩⟩
      · simp [findClose] at hc'
      · simp [findClose, fenceClose, List.isPrefixOf] at hc'
      · have hih := ih c' hc'
        have hpf : fenceClose.isPrefixOf (x :: ((y :: z :: t) ++ r)) = false := by
          simp only [List.cons_append]
          simp only [fenceClose, List.isPrefixOf] at hp ⊢
          simpa using hp
        rw [List.cons_append, findClose, hpf]
        simp only [List.cons_append] at hih
        simp [hih]

/-! ### Claim C2 -/

/-- Claim C2: `parse_plan_from_response` never raises (it is a total
function into `Option`), and it fails closed: when the response has no
fenced JSON block the result is `none`; when the located block fails to
decode the result is `none`; when the decoded JSON lacks the
`"type": "trip_plan"` itinerary marker the result is `none`; and when
the decoded JSON carries the marker the result is exactly that decoded
JSON value. -/
theorem c2_parse_fails_closed (s : List Char) :
    (extractJsonBlock s = none → parsePlanFromResponse s = none) ∧
    (∀ b, extractJsonBlock s = some b → jsonLoads b = none →
      parsePlanFromResponse s = none) ∧
    (∀ b j, extractJsonBlock s = some b → jsonLoads b = some j →
      isTripPlanJson j = false → parsePlanFromResponse s = none) ∧
    (∀ b j, extractJsonBlock s = some b → jsonLoads b = some j →
      isTripPlanJson j = true → parsePlanFromResponse s = some j) := by
  refine ⟨?_, ?_, ?_, ?_⟩ <;> intros <;> simp_all [parsePlanFromResponse]

/-- Witness for C2: the four cases at concrete responses — no fenced
block, an undecodable block, a decodable block without the itinerary
marker, and a marked itinerary block returned deep-equal to the
embedded JSON. -/
theorem c2_parse_fails_closed_witness :
    parsePlanFromResponse "no json here".data = none ∧
    parsePlanFromResponse "```json not json ```".data = none ∧
    parsePlanFromResponse "```json \x7b\"type\": \"chat\"\x7d ```".data = none ∧
    parsePlanFromResponse "x ```json \x7b\"type\": \"trip_plan\"\x7d ``` y".data =
      some (Json.obj [("type".data, Json.str "trip_plan".data)]) := by
  refine ⟨?_, ?_, ?_, ?_⟩
  · exact (c2_parse_fails_closed _).1 (by rfl)
  · exact (c2_parse_fails_closed _).2.1 _ (by rfl) (by rfl)
  · exact (c2_parse_fails_closed _).2.2.1 _ _ (by rfl) (by rfl) (by rfl)
  · exact (c2_parse_fails_closed _).2.2.2 _ _ (by rfl) (by rfl) (by rfl)

/-! ### Claim C10 -/

/-- Claim C10: the parser inspects only the first fenced JSON block.
For EVERY continuation `tail` — in particular any text containing
further fenced blocks that are valid itinerary payloads, such as
`c10SecondBlock` — a response starting with a complete marker-less
fenced block parses to `none`; and `c10SecondBlock` on its own is
indeed a valid itinerary payload (it parses to `some`). -/
theorem c10_only_first_block (tail : List Char) :
    parsePlanFromResponse (c10FirstPart.data ++ tail) = none ∧
    parsePlanFromResponse c10SecondBlock.data = some c10PlanJson := by
  constructor
  · have h1 : c10FirstPart.data ++ tail =
        '\x60' :: '\x60' :: '\x60' :: 'j' :: 's' :: 'o' :: 'n' ::
        (" \x7b\"a\": 1\x7d ".data ++ ('\x60' :: '\x60' :: '\x60' :: tail)) := by
      rfl
    have h2 : findClose (" \x7b\"a\": 1\x7d ".data ++
        ('\x60' :: '\x60' :: '\x60' :: tail)) = some " \x7b\"a\": 1\x7d ".data := by
      have := findClose_append tail
        (" \x7b\"a\": 1\x7d ".data ++ ['\x60', '\x60', '\x60'])
        " \x7b\"a\": 1\x7d ".data (by rfl)
      simpa using this
    have h3 : findFencedRaw (c10FirstPart.data ++ tail) =
        some " \x7b\"a\": 1\x7d ".data := by
      rw [h1, findFencedRaw, h2]
    simp [parsePlanFromResponse, extractJsonBlock, h3]
    rfl
  · rfl

/-! ### Claim C3 -/

/-- Claim C3 counterexample: when the chat provider answers with a
fenced JSON block containing `{}` (decodable, but not an intent), the
extractor returns `{}` as the "intent": it is not structurally valid
(every required key is missing) and it is not the default intent
either.  This refutes "always returns a structurally valid intent with
all required keys present and correctly typed". -/
theorem c3_unvalidated_intent_cex :
    extractTravelIntent (Except.ok "```json \x7b\x7d ```".data) req0 =
      Json.obj [] ∧
    structurallyValidIntent (Json.obj []) = false ∧
    Json.obj [] ≠ defaultIntent req0 := by
  refine ⟨by rfl, by rfl, ?_⟩
  intro h
  simp [defaultIntent] at h

/-- Claim C3, amended: `_extract_travel_intent` never raises (it is a
total function), and it returns the fixed default intent — which IS
structurally valid — exactly on: a chat-provider error, a fenced block
that fails to decode, or no fenced block and a whole-response decode
failure.  Otherwise it returns whatever JSON decoded, without any
structural validation (so a decodable non-intent payload is passed
through, per the counterexample). -/
theorem c3_extract_never_fails (chat : Except Unit (List Char))
    (req : PlanRequest) :
    (chat = Except.error () →
      extractTravelIntent chat req = defaultIntent req) ∧
    (∀ resp raw, chat = Except.ok resp → findFencedRaw resp = some raw →
      jsonLoads (pyStrip raw) = none →
      extractTravelIntent chat req = defaultIntent req) ∧
    (∀ resp, chat = Except.ok resp → findFencedRaw resp = none →
      jsonLoads resp = none →
      extractTravelIntent chat req = defaultIntent req) ∧
    (∀ resp raw j, chat = Except.ok resp → findFencedRaw resp = some raw →
      jsonLoads (pyStrip raw) = some j →
      extractTravelIntent chat req = j) ∧
    (∀ resp j, chat = Except.ok resp → findFencedRaw resp = none →
      jsonLoads resp = some j → extractTravelIntent chat req = j) ∧
    structurallyValidIntent (defaultIntent req) = true := by
  refine ⟨?_, ?_, ?_, ?_, ?_, ?_⟩
  · intro h; subst h; rfl
  · intro resp raw h h2 h3; subst h; simp [extractTravelIntent, h2, h3]
  · intro resp h h2 h3; subst h; simp [extractTravelIntent, h2, h3]
  · intro resp raw j h h2 h3; subst h; simp [extractTravelIntent, h2, h3]
  · intro resp j h h2 h3; subst h; simp [extractTravelIntent, h2, h3]
  · rfl

/-- Witness for the amended C3: a chat error and an un-decodable chat
answer both yield the (structurally valid) default intent. -/
theorem c3_extract_never_fails_witness :
    extractTravelIntent (Except.error ()) req0 = defaultIntent req0 ∧
    extractTravelIntent (Except.ok "hello".data) req0 = defaultIntent req0 ∧
    structurallyValidIntent (defaultIntent req0) = true := by
  refine ⟨?_, ?_, ?_⟩
  · exact (c3_extract_never_fails (Except.error ()) req0).1 rfl
  · exact (c3_extract_never_fails _ req0).2.2.1 _ (by rfl) (by rfl) (by rfl)
  · exact (c3_extract_never_fails (Except.error ()) req0).2.2.2.2.2

/-! ### Claims C5 and C6: image resolver -/

/-- Candidates surviving the DDGS filter are HTTPS, free of blacklisted
domains, and matched by the allowlist. -/
theorem collectCandidates_sound : ∀ (rs : List DDGSResult) (n : Nat)
    (u : String), u ∈ collectCandidates rs n →
    strStartsWith u "https://" = true ∧ isBlacklisted u = false ∧
      matchesValidPattern u = true := by
  intro rs
  induction rs with
  | nil => intro n u h; simp [collectCandidates] at h
  | cons r rest ih =>
    intro n u h
    rw [collectCandidates] at h
    rcases he : effectiveUrl r with _ | v
    · rw [he] at h; exact ih n u h
    · rw [he] at h
      dsimp only at h
      by_cases hp : passesFilter v = true
      · rw [if_pos hp] at h
        by_cases hc : n + 1 ≥ 5
        · rw [if_pos hc] at h
          rcases List.mem_singleton.mp h with rfl
          simp only [passesFilter, Bool.and_eq_true, Bool.not_eq_true'] at hp
          exact ⟨hp.1.1, hp.1.2, hp.2⟩
        · rw [if_neg hc] at h
          rcases List.mem_cons.mp h with rfl | h2
          · simp only [passesFilter, Bool.and_eq_true, Bool.not_eq_true'] at hp
            exact ⟨hp.1.1, hp.1.2, hp.2⟩
          · exact ih (n + 1) u h2
      · rw [if_neg hp] at h
        exact ih n u h

/-- The collection loop never exceeds 5 candidates. -/
theorem collectCandidates_length : ∀ (rs : List DDGSResult) (n : Nat),
    n < 5 → (collectCandidates rs n).length + n ≤ 5 := by
  intro rs
  induction rs with
  | nil => intro n h; simp [collectCandidates]; omega
  | cons r rest ih =>
    intro n h
    rw [collectCandidates]
    rcases he : effectiveUrl r with _ | v
    · exact ih n h
    · dsimp only
      by_cases hp : passesFilter v = true
      · rw [if_pos hp]
        by_cases hc : n + 1 ≥ 5
        · rw [if_pos hc]; simp; omega
        · rw [if_neg hc]
          have := ih (n + 1) (by omega)
          simp only [List.length_cons]
          omega
      · rw [if_neg hp]
        exact ih n h

theorem firstVerified_none : ∀ (v : String → Bool) (l : List String),
    (∀ x ∈ l, v x = false) → firstVerified v l = none := by
  intro v l
  induction l with
  | nil => intro _; rfl
  | cons x rest ih =>
    intro h
    rw [firstVerified]
    rw [h x (List.mem_cons_self _ _)]
    simp only [Bool.false_eq_true, if_false]
    exact ih (fun y hy => h y (List.mem_cons_of_mem _ hy))

theorem firstVerified_some : ∀ (v : String → Bool) (l : List String)
    (u : String), firstVerified v l = some u →
    ∃ pre post, l = pre ++ u :: post ∧ (∀ x ∈ pre, v x = false) ∧
      v u = true := by
  intro v l
  induction l with
  | nil => intro u h; simp [firstVerified] at h
  | cons x rest ih =>
    intro u h
    rw [firstVerified] at h
    by_cases hv : v x = true
    · rw [if_pos hv] at h
      obtain rfl : x = u := by simpa using h
      exact ⟨[], rest, rfl, by simp, hv⟩
    · rw [if_neg hv] at h
      obtain ⟨pre, post, rfl, hpre, hu⟩ := ih u h
      refine ⟨x :: pre, post, rfl, ?_, hu⟩
      intro y hy
      rcases List.mem_cons.mp hy with rfl | hy2
      · simpa using hv
      · exact hpre y hy2

/-- Claim C5: strict tier priority in `search_destination_image`.  An
unconfigured or failing premium key yields no premium result; when the
premium tier returns a truthy (non-empty) URL the static-map and web
tiers are never invoked (the invocation log is `[unsplash]` only); when
the premium tier yields nothing — no URL or an empty, falsy one — and a
truthy coordinate plus a configured map key are present, the static-map
URL is returned; a raising static-map tier falls through to the web
tier; and with no usable coordinate or key the resolver falls through
to the web tier — all without raising (the resolver is a total
function). -/
theorem c5_tier_priority (env : ImageEnv) (d : String) (loc : Option String)
    (markers : List Json) :
    (env.unsplashKey = "" → searchUnsplashImage env = none) ∧
    (env.unsplashOutcome = Except.error () → searchUnsplashImage env = none) ∧
    (∀ u, searchUnsplashImage env = some u → u ≠ "" →
      searchDestinationImage env d loc markers = (some u, [Tier.unsplash])) ∧
    (∀ l url,
      (searchUnsplashImage env = none ∨ searchUnsplashImage env = some "") →
      loc = some l → l ≠ "" → env.amapWebKey ≠ "" →
      getAmapStaticImage env.amapWebKey l markers = Except.ok url →
      searchDestinationImage env d loc markers =
        (some url, [Tier.unsplash, Tier.staticMap])) ∧
    (∀ l,
      (searchUnsplashImage env = none ∨ searchUnsplashImage env = some "") →
      loc = some l → l ≠ "" → env.amapWebKey ≠ "" →
      getAmapStaticImage env.amapWebKey l markers = Except.error () →
      searchDestinationImage env d loc markers =
        (ddgsTierSearch env, [Tier.unsplash, Tier.staticMap, Tier.ddgs])) ∧
    ((searchUnsplashImage env = none ∨ searchUnsplashImage env = some "") →
      (loc = none ∨ ∃ l, loc = some l ∧ (l = "" ∨ env.amapWebKey = "")) →
      searchDestinationImage env d loc markers =
        (ddgsTierSearch env, [Tier.unsplash, Tier.ddgs])) := by
  refine ⟨?_, ?_, ?_, ?_, ?_, ?_⟩
  · intro h; simp [searchUnsplashImage, h]
  · intro h; simp [searchUnsplashImage, h]
  · intro u h hne; simp [searchDestinationImage, h, hne]
  · intro l url h hl hne hkey hok
    subst hl
    rcases h with h | h <;>
      simp [searchDestinationImage, searchLowerTiers, h, hne, hkey, hok]
  · intro l h hl hne hkey herr
    subst hl
    rcases h with h | h <;>
      simp [searchDestinationImage, searchLowerTiers, h, hne, hkey, herr]
  · intro h hcase
    rcases hcase with rfl | ⟨l, rfl, hl⟩
    · rcases h with h | h <;>
        simp [searchDestinationImage, searchLowerTiers, h]
    · rcases hl with rfl | hk
      · rcases h with h | h <;>
          simp [searchDestinationImage, searchLowerTiers, h]
      · rcases h with h | h <;>
          simp [searchDestinationImage, searchLowerTiers, h, hk]

/-- Witness for C5: a configured premium tier returning a non-empty URL
stops the chain at `[unsplash]`; an unconfigured premium tier with a
coordinate and map key returns the static-map URL; a premium tier
returning an EMPTY (falsy) URL falls through past the absent map key to
the web tier; with nothing configured the resolver runs the web
tier. -/
theorem c5_tier_priority_witness :
    searchDestinationImage c5Env "杭州" (some "120.1,30.2") [] =
      (some "https://images.unsplash.com/photo1", [Tier.unsplash]) ∧
    searchDestinationImage c5EnvB "杭州" (some "120.1,30.2") [] =
      (some ("https://restapi.amap.com/v3/staticmap?location=120.1,30.2&zoom=12&size=750*500&scale=2&key=ak"),
       [Tier.unsplash, Tier.staticMap]) ∧
    searchDestinationImage c5EnvC "杭州" none [] =
      (ddgsTierSearch c5EnvC, [Tier.unsplash, Tier.ddgs]) ∧
    searchDestinationImage c6Env "杭州" none [] =
      (ddgsTierSearch c6Env, [Tier.unsplash, Tier.ddgs]) := by
  refine ⟨?_, ?_, ?_, ?_⟩
  · exact (c5_tier_priority c5Env "杭州" (some "120.1,30.2") []).2.2.1 _
      (by rfl) (by decide)
  · exact (c5_tier_priority c5EnvB "杭州" (some "120.1,30.2") []).2.2.2.1 _ _
      (Or.inl (by rfl)) rfl (by simp) (by simp [c5EnvB]) (by rfl)
  · exact (c5_tier_priority c5EnvC "杭州" none []).2.2.2.2.2
      (Or.inr (by rfl)) (Or.inl rfl)
  · exact (c5_tier_priority c6Env "杭州" none []).2.2.2.2.2
      (Or.inl (by rfl)) (Or.inl rfl)

/-- Claim C6 counterexample: the probe accepts a 200 response whose
content-type is `application/octet-stream`, which is not an image
content-type (it does not contain `image/`).  This refutes "a candidate
verifying only on a successful status and an image content-type": the
code also verifies on `octet-stream`. -/
theorem c6_octet_stream_cex :
    verifyImageAccessible c6HeadStub "https://example.com/a.jpg" = true ∧
    strContains (String.mk (lowerStr "application/octet-stream".data))
      "image/" = false := by
  exact ⟨by rfl, by rfl⟩

/-- Claim C6, amended: every candidate surviving the web-tier filter is
HTTPS, contains no blacklisted-domain substring and matches the
allowlist; at most 5 candidates are collected; they are probed in
order with the first verified URL returned and `none` when none
verify; and a candidate verifies only on a 200 status with a
content-type containing `image/` or `octet-stream` (the latter is the
amendment: the source also accepts `application/octet-stream`). -/
theorem c6_web_filter_verify (env : ImageEnv) :
    (∀ u, u ∈ collectCandidates env.ddgsResults 0 →
      strStartsWith u "https://" = true ∧ isBlacklisted u = false ∧
        matchesValidPattern u = true) ∧
    (collectCandidates env.ddgsResults 0).length ≤ 5 ∧
    (∀ u, ddgsTierSearch env = some u →
      ∃ pre post, collectCandidates env.ddgsResults 0 = pre ++ u :: post ∧
        (∀ x ∈ pre, verifyImageAccessible env.head x = false) ∧
        verifyImageAccessible env.head u = true) ∧
    ((∀ x ∈ collectCandidates env.ddgsResults 0,
        verifyImageAccessible env.head x = false) →
      ddgsTierSearch env = none) ∧
    (∀ u resp, env.head u = Except.ok resp →
      verifyImageAccessible env.head u = true →
      resp.status = 200 ∧
        (strContains (String.mk (lowerStr resp.contentType.data)) "image/" = true ∨
         strContains (String.mk (lowerStr resp.contentType.data)) "octet-stream" = true)) := by
  refine ⟨?_, ?_, ?_, ?_, ?_⟩
  · intro u h; exact collectCandidates_sound env.ddgsResults 0 u h
  · have := collectCandidates_length env.ddgsResults 0 (by omega)
    omega
  · intro u h
    rw [ddgsTierSearch] at h
    by_cases hc : (collectCandidates env.ddgsResults 0).isEmpty = true
    · rw [if_pos hc] at h; simp at h
    · rw [if_neg hc] at h
      exact firstVerified_some _ _ u h
  · intro hall
    rw [ddgsTierSearch]
    by_cases hc : (collectCandidates env.ddgsResults 0).isEmpty = true
    · rw [if_pos hc]
    · rw [if_neg hc]
      exact firstVerified_none _ _ hall
  · intro u resp hh hv
    rw [verifyImageAccessible, hh] at hv
    simp only [Bool.and_eq_true, Bool.or_eq_true, decide_eq_true_eq] at hv
    exact hv

/-- Witness for the amended C6 at `c6Env`: the surviving candidate is
HTTPS/non-blacklisted/allowlisted, and the tier returns it as the first
verified candidate. -/
theorem c6_web_filter_verify_witness :
    (strStartsWith "https://img.example.com/a.jpg" "https://" = true ∧
      isBlacklisted "https://img.example.com/a.jpg" = false ∧
      matchesValidPattern "https://img.example.com/a.jpg" = true) ∧
    (∃ pre post, collectCandidates c6Env.ddgsResults 0 =
        pre ++ "https://img.example.com/a.jpg" :: post ∧
      (∀ x ∈ pre, verifyImageAccessible c6Env.head x = false) ∧
      verifyImageAccessible c6Env.head "https://img.example.com/a.jpg" = true) := by
  have hc : collectCandidates c6Env.ddgsResults 0 =
      ["https://img.example.com/a.jpg"] := by rfl
  constructor
  · refine (c6_web_filter_verify c6Env).1 "https://img.example.com/a.jpg" ?_
    rw [hc]
    exact List.mem_singleton.mpr rfl
  · refine (c6_web_filter_verify c6Env).2.2.1 "https://img.example.com/a.jpg" ?_
    rfl

/-! ### Claim C1: attraction merge -/

/-- The dedup loop only drops elements (it is a sublist, so relative
order is preserved). -/
theorem dedupByName_sublist : ∀ (xs : List POI) (seen : List String),
    List.Sublist (dedupByName xs seen) xs := by
  intro xs
  induction xs with
  | nil => intro seen; simp [dedupByName]
  | cons a rest ih =>
    intro seen
    rw [dedupByName]
    by_cases h : a.name ∈ seen
    · rw [if_pos h]
      exact List.Sublist.cons a (ih seen)
    · rw [if_neg h]
      exact List.Sublist.cons₂ a (ih (a.name :: seen))

/-- Nothing already seen is emitted. -/
theorem mem_dedupByName_not_seen : ∀ (xs : List POI) (seen : List String)
    (a : POI), a ∈ dedupByName xs seen → a.name ∉ seen := by
  intro xs
  induction xs with
  | nil => intro seen a h; simp [dedupByName] at h
  | cons x rest ih =>
    intro seen a h
    rw [dedupByName] at h
    by_cases hx : x.name ∈ seen
    · rw [if_pos hx] at h
      exact ih seen a h
    · rw [if_neg hx] at h
      rcases List.mem_cons.mp h with rfl | h2
      · exact hx
      · have := ih _ a h2
        intro hc
        exact this (List.mem_cons_of_mem _ hc)

/-- The emitted names are pairwise distinct. -/
theorem dedupByName_nodup : ∀ (xs : List POI) (seen : List String),
    ((dedupByName xs seen).map POI.name).Nodup := by
  intro xs
  induction xs with
  | nil => intro seen; simp [dedupByName]
  | cons x rest ih =>
    intro seen
    rw [dedupByName]
    by_cases hx : x.name ∈ seen
    · rw [if_pos hx]; exact ih seen
    · rw [if_neg hx]
      simp only [List.map_cons, List.nodup_cons]
      refine ⟨?_, ih _⟩
      intro hmem
      rcases List.mem_map.mp hmem with ⟨b, hb, hbn⟩
      have := mem_dedupByName_not_seen _ _ _ hb
      exact this (hbn ▸ List.mem_cons_self _ _)

/-- Every emitted element is the first occurrence of its name in the
input. -/
theorem dedupByName_first_occurrence : ∀ (xs : List POI) (seen : List String)
    (a : POI), a ∈ dedupByName xs seen →
    xs.find? (fun x => x.name == a.name) = some a := by
  intro xs
  induction xs with
  | nil => intro seen a h; simp [dedupByName] at h
  | cons x rest ih =>
    intro seen a h
    rw [dedupByName] at h
    by_cases hx : x.name ∈ seen
    · rw [if_pos hx] at h
      have hne : x.name ≠ a.name := by
        intro he
        exact (mem_dedupByName_not_seen _ _ _ h) (he ▸ hx)
      have hpb : (x.name == a.name) = false := by simp [hne]
      simp only [List.find?_cons, hpb]
      exact ih seen a h
    · rw [if_neg hx] at h
      rcases List.mem_cons.mp h with rfl | h2
      · simp [List.find?_cons]
      · have hnotin := mem_dedupByName_not_seen _ _ _ h2
        have hne : x.name ≠ a.name := by
          intro he
          exact hnotin (he ▸ List.mem_cons_self _ _)
        have hpb : (x.name == a.name) = false := by simp [hne]
        simp only [List.find?_cons, hpb]
        exact ih _ a h2

/-- Every unseen input name survives deduplication. -/
theorem mem_dedupByName_of_mem : ∀ (xs : List POI) (seen : List String)
    (n : String), n ∈ xs.map POI.name → n ∉ seen →
    n ∈ (dedupByName xs seen).map POI.name := by
  intro xs
  induction xs with
  | nil => intro seen n h; simp at h
  | cons x rest ih =>
    intro seen n h hns
    rw [List.map_cons] at h
    rw [dedupByName]
    rcases List.mem_cons.mp h with h1 | h2
    · subst h1
      rw [if_neg hns]
      simp only [List.map_cons]
      exact List.mem_cons_self _ _
    · by_cases hx : x.name ∈ seen
      · rw [if_pos hx]
        exact ih seen n h2 hns
      · rw [if_neg hx]
        by_cases hxa : n = x.name
        · simp only [List.map_cons]
          exact hxa ▸ List.mem_cons_self _ _
        · simp only [List.map_cons]
          refine List.mem_cons_of_mem _ ?_
          refine ih _ n h2 ?_
          simp [hxa, hns]

/-- Claim C1: the merged attraction list is the name-deduplicated
concatenation of the specific-place results with the keyword results,
capped at 15: it has at most 15 entries, is a sublist of the
concatenation (stable order), carries pairwise-distinct names, each
entry is exactly the first occurrence of its name in the concatenation
(first occurrence wins), and a name occurring in both source lists
occurs exactly once in the deduplicated list. -/
theorem c1_merge_dedup_cap (s g : List POI) :
    (mergeAttractions s g).length ≤ 15 ∧
    List.Sublist (mergeAttractions s g) (s ++ g) ∧
    ((mergeAttractions s g).map POI.name).Nodup ∧
    (∀ a ∈ mergeAttractions s g,
      (s ++ g).find? (fun x => x.name == a.name) = some a) ∧
    (∀ n, n ∈ s.map POI.name → n ∈ g.map POI.name →
      (dedupByName (s ++ g) []).countP (fun x => x.name == n) = 1) := by
  refine ⟨?_, ?_, ?_, ?_, ?_⟩
  · exact (List.length_take_le _ _).trans (le_refl 15)
  · exact (List.take_sublist _ _).trans (dedupByName_sublist _ [])
  · have h := dedupByName_nodup (s ++ g) []
    have : (mergeAttractions s g).map POI.name =
        ((dedupByName (s ++ g) []).map POI.name).take 15 := by
      simp [mergeAttractions, List.map_take]
    rw [this]
    exact h.sublist (List.take_sublist _ _)
  · intro a ha
    exact dedupByName_first_occurrence (s ++ g) [] a
      ((List.take_sublist _ _).subset ha)
  · intro n hs hg
    have hmem : n ∈ ((dedupByName (s ++ g) []).map POI.name) := by
      refine mem_dedupByName_of_mem _ [] n ?_ (by simp)
      rw [List.map_append]
      exact List.mem_append_left _ hs
    have hnd := dedupByName_nodup (s ++ g) []
    have hcount := List.count_eq_one_of_mem hnd hmem
    rw [List.count] at hcount
    rw [← hcount]
    rw [List.countP_map]
    rfl

/-- Witness for C1: 西湖 occurs in both source lists; the merged list
keeps it once, at its first position, and stays within the cap. -/
theorem c1_merge_dedup_cap_witness :
    (mergeAttractions c1s c1g).length ≤ 15 ∧
    (c1s ++ c1g).find? (fun x => x.name == (poiNamed "西湖").name) =
      some (poiNamed "西湖") ∧
    (dedupByName (c1s ++ c1g) []).countP (fun x => x.name == "西湖") = 1 := by
  have hmerge : mergeAttractions c1s c1g =
      [poiNamed "西湖", poiNamed "灵隐寺", poiNamed "雷峰塔"] := by rfl
  refine ⟨(c1_merge_dedup_cap c1s c1g).1, ?_, ?_⟩
  · refine (c1_merge_dedup_cap c1s c1g).2.2.2.1 (poiNamed "西湖") ?_
    rw [hmerge]
    exact List.mem_cons_self _ _
  · exact (c1_merge_dedup_cap c1s c1g).2.2.2.2 "西湖" (by simp [c1s, poiNamed])
      (by simp [c1g, poiNamed])

/-! ### Claim C9: share codes -/

/-- `findRow` commutes with a row map that preserves ids. -/
theorem findRow_map (db : List PlanRow) (planId : String)
    (f : PlanRow → PlanRow) (hf : ∀ r, (f r).id = r.id) :
    findRow (db.map f) planId = (findRow db planId).map f := by
  rw [findRow, findRow, List.find?_map]
  have hcomp : ((fun r => r.id == planId) ∘ f) = (fun r => r.id == planId) := by
    funext r
    simp only [Function.comp]
    rw [hf r]
  rw [hcomp]

theorem c9_share_code_iff_public (db : List PlanRow) (freshId freshCode userId planId : String)
    (isPublic : Bool) (hasOther : Bool) (row : PlanRow) :
    ((createPlan db freshId freshCode userId isPublic).2.shareCode.isSome
      = isPublic) ∧
    (findRow db planId = some row → row.userId = userId →
      row.shareCode = none →
      findRow (updatePlan db planId userId (some true) hasOther freshCode)
        planId =
        some { row with isPublic := true, shareCode := some freshCode }) ∧
    (∀ c, findRow db planId = some row → row.userId = userId →
      row.shareCode = some c →
      findRow (updatePlan db planId userId (some true) hasOther freshCode)
        planId =
        some { row with isPublic := true, shareCode := some c }) := by
  refine ⟨?_, ?_, ?_⟩
  · cases isPublic <;> rfl
  · intro hfind huser hcode
    have hp := List.find?_some hfind
    rw [updatePlan]
    simp only [Option.isNone_some, Bool.false_and, Bool.false_eq_true,
      if_false]
    have hassign : (true && !(hasShareCode db planId)) = true := by
      simp [hasShareCode, hfind, hcode]
    rw [hassign]
    rw [findRow_map]
    · rw [hfind]
      simp [hp, huser, hcode]
      intro hne
      exact absurd (by simpa using hp) hne
    · intro r
      by_cases hr : (r.id == planId && r.userId == userId) = true
      · simp [hr]
      · simp [hr]
  · intro c hfind huser hcode
    have hp := List.find?_some hfind
    rw [updatePlan]
    simp only [Option.isNone_some, Bool.false_and, Bool.false_eq_true,
      if_false]
    have hassign : (true && !(hasShareCode db planId)) = false := by
      simp [hasShareCode, hfind, hcode]
    rw [hassign]
    rw [findRow_map]
    · rw [hfind]
      simp [hp, huser, hcode]
      intro hne
      exact absurd (by simpa using hp) hne
    · intro r
      by_cases hr : (r.id == planId && r.userId == userId) = true
      · simp [hr]
      · simp [hr]

/-- Witness for C9: creating public assigns a code, creating private
does not; making a codeless plan public assigns the fresh code; making
an already-coded plan public keeps its code. -/
theorem c9_share_code_iff_public_witness :
    ((createPlan [] "p1" "code1" "u1" true).2.shareCode.isSome = true) ∧
    ((createPlan [] "p1" "code1" "u1" false).2.shareCode.isSome = false) ∧
    (findRow (updatePlan [c9Row] "p1" "u1" (some true) false "code2") "p1" =
      some { c9Row with isPublic := true, shareCode := some "code2" }) ∧
    (findRow (updatePlan [{ c9Row with shareCode := some "c0" }] "p1" "u1"
        (some true) false "code2") "p1" =
      some { c9Row with isPublic := true, shareCode := some "c0" }) := by
  refine ⟨?_, ?_, ?_, ?_⟩
  · exact (c9_share_code_iff_public [] "p1" "code1" "u1" "p1" true false
      c9Row).1
  · exact (c9_share_code_iff_public [] "p1" "code1" "u1" "p1" false false
      c9Row).1
  · exact (c9_share_code_iff_public [c9Row] "x" "code2" "u1" "p1" true false
      c9Row).2.1 (by rfl) rfl rfl
  · exact (c9_share_code_iff_public [{ c9Row with shareCode := some "c0" }]
      "x" "code2" "u1" "p1" true false
      { c9Row with shareCode := some "c0" }).2.2 "c0" (by rfl) rfl rfl

/-! ### Claim C8: prompt builder -/

/-- Any string is embedded in itself. -/
theorem sInfix_self (a : String) : sInfix a a :=
  ⟨"", "", by rw [String.append_empty]; rfl⟩

/-- Embedding is preserved by prepending. -/
theorem sInfix_appL (a : String) {sub b : String} (h : sInfix sub b) :
    sInfix sub (a ++ b) := by
  obtain ⟨l, r, rfl⟩ := h
  exact ⟨a ++ l, r, by rw [String.append_assoc, String.append_assoc,
    String.append_assoc]⟩

/-- Embedding is preserved by appending. -/
theorem sInfix_appR {sub a : String} (h : sInfix sub a) (b : String) :
    sInfix sub (a ++ b) := by
  obtain ⟨l, r, rfl⟩ := h
  exact ⟨l, r ++ b, by rw [String.append_assoc, String.append_assoc]⟩

/-- Embedding composes. -/
theorem sInfix_trans {a b c : String} (h1 : sInfix a b) (h2 : sInfix b c) :
    sInfix a c := by
  obtain ⟨l1, r1, rfl⟩ := h1
  obtain ⟨l2, r2, rfl⟩ := h2
  refine ⟨l2 ++ l1, r1 ++ r2, ?_⟩
  simp only [String.append_assoc]

/-- Every f-string piece is embedded in the assembled string. -/
theorem concatAll_mem {x : String} : ∀ {l : List String}, x ∈ l →
    sInfix x (concatAll l) := by
  intro l
  induction l with
  | nil => intro h; simp at h
  | cons y rest ih =>
    intro h
    rw [concatAll]
    rcases List.mem_cons.mp h with rfl | h2
    · exact sInfix_appR (sInfix_self x) _
    · exact sInfix_appL y (ih h2)

/-- Every joined element is embedded in the join. -/
theorem joinStrSep_mem (sep : String) {x : String} :
    ∀ {l : List String}, x ∈ l → sInfix x (joinStrSep sep l) := by
  intro l
  induction l with
  | nil => intro h; simp at h
  | cons y rest ih =>
    intro h
    rcases List.mem_cons.mp h with rfl | h2
    · match rest with
      | [] => exact sInfix_self x
      | z :: rest' =>
        rw [joinStrSep]
        · exact sInfix_appR (sInfix_appR (sInfix_self x) sep) _
        · simp
    · match rest, h2 with
      | z :: rest', h2 =>
        rw [joinStrSep]
        · exact sInfix_appL _ (ih h2)
        · simp

theorem attractionsInfoStr_set_weather (ctx : Context) (w : Option Json) :
    attractionsInfoStr { ctx with weather := w } = attractionsInfoStr ctx := rfl

theorem foodInfoStr_set_weather (ctx : Context) (w : Option Json) :
    foodInfoStr { ctx with weather := w } = foodInfoStr ctx := rfl

theorem hotelInfoStr_set_weather (ctx : Context) (w : Option Json) :
    hotelInfoStr { ctx with weather := w } = hotelInfoStr ctx := rfl

theorem photoInfoStr_set_weather (ctx : Context) (w : Option Json) :
    photoInfoStr { ctx with weather := w } = photoInfoStr ctx := rfl

/-- When the gathered weather produces empty `weather_info` and
`weather_tips` (as the `get_weather` result shape always does), the
built prompt is identical to the prompt of a context with no weather at
all. -/
theorem buildPrompt_weather_irrelevant (req : PlanRequest) (ctx : Context)
    (intent : Json) (mode : String) (oi pj : Nat) (w : Json)
    (hcw : ctx.weather = some w)
    (hwt : weatherInfoTips w req.days = Except.ok ("", "")) :
    buildPromptWithIntent req { ctx with weather := none } intent mode oi pj =
      buildPromptWithIntent req ctx intent mode oi pj := by
  rw [buildPromptWithIntent, buildPromptWithIntent]
  simp [hcw, hwt, attractionsInfoStr_set_weather, foodInfoStr_set_weather,
    hotelInfoStr_set_weather, photoInfoStr_set_weather]

/-- Claim C8, amended.  Whenever the builder returns a prompt: in
planning mode the prompt embeds the attractions, food, hotel and
photo-spot fragments, the destination, the rendered day count, every
preference tag verbatim, the instruction to append a fenced JSON block,
and the weather section computed from the gathered weather; in
travelogue mode only the food and hotel fragments are embedded (with
destination, days, preferences and the JSON instruction).  And whenever
the gathered weather yields empty `weather_info`/`weather_tips` — which
is always the case for `get_weather`-shaped weather, whose keys are
`live`/`forecasts` rather than the `lives`/`forecasts[0].casts` the
builder reads — the prompt is identical to that of a weatherless
context, i.e. the weather fragment is not embedded. -/
theorem c8_prompt_embeds (req : PlanRequest) (ctx : Context) (intent : Json)
    (mode : String) (oi pj : Nat) (p : String)
    (h : buildPromptWithIntent req ctx intent mode oi pj = Except.ok p) :
    ((mode == "travelogue") = false →
      sInfix (attractionsInfoStr ctx) p ∧
      sInfix (foodInfoStr ctx) p ∧
      sInfix (hotelInfoStr ctx) p ∧
      sInfix (photoInfoStr ctx) p ∧
      sInfix req.destination p ∧
      sInfix (toString req.days) p ∧
      (∀ pref ∈ req.preferences, sInfix pref p) ∧
      sInfix "请生成详细的行程攻略，最后附上JSON格式的结构化数据（用```json```包裹）。" p ∧
      (∀ w wi wt, ctx.weather = some w →
        weatherInfoTips w req.days = Except.ok (wi, wt) →
        sInfix (weatherSectionStr wi wt) p)) ∧
    ((mode == "travelogue") = true →
      sInfix (foodInfoStr ctx) p ∧
      sInfix (hotelInfoStr ctx) p ∧
      sInfix req.destination p ∧
      sInfix (toString req.days) p ∧
      (∀ pref ∈ req.preferences, sInfix pref p) ∧
      sInfix "请生成完整的游记攻略，最后附上JSON格式的结构化数据（用```json```包裹）。" p) ∧
    (∀ w, ctx.weather = some w →
      weatherInfoTips w req.days = Except.ok ("", "") →
      buildPromptWithIntent req { ctx with weather := none } intent mode oi pj =
        Except.ok p) := by
  refine ⟨?_, ?_, ?_⟩
  · intro hm
    cases hIT : intentSummaryText intent with
    | error e => rw [buildPromptWithIntent] at h; simp [hIT, Bind.bind, Except.bind] at h
    | ok intentText =>
      cases hW : (match ctx.weather with
        | some w => weatherInfoTips w req.days
        | none => Except.ok (("", "") : String × String)) with
      | error e => rw [buildPromptWithIntent] at h; simp [hIT, hW, Bind.bind, Except.bind] at h
      | ok wit =>
        rw [buildPromptWithIntent] at h
        simp [hIT, hW, hm, Bind.bind, Except.bind, Pure.pure, Except.pure] at h
        subst h
        rw [planningPrompt]
        refine ⟨?_, ?_, ?_, ?_, ?_, ?_, ?_, ?_, ?_⟩
        · exact concatAll_mem (by simp [planningPromptPieces])
        · exact concatAll_mem (by simp [planningPromptPieces])
        · exact concatAll_mem (by simp [planningPromptPieces])
        · exact concatAll_mem (by simp [planningPromptPieces])
        · exact concatAll_mem (by simp [planningPromptPieces])
        · exact concatAll_mem (by simp [planningPromptPieces])
        · intro pref hpref
          refine sInfix_trans ?_
            (concatAll_mem (l := planningPromptPieces req
              (weatherSectionStr wit.1 wit.2) intentText (prefsStr req)
              (transportDescStr req) (budgetStrOf req) (dateStrOf req)
              (descStrOf req) (attractionsInfoStr ctx) (foodInfoStr ctx)
              (hotelInfoStr ctx) (photoInfoStr ctx))
              (x := prefsStr req) (by simp [planningPromptPieces]))
          rw [prefsStr, if_neg]
          · exact joinStrSep_mem "、" hpref
          · simp
            intro hempty
            rw [hempty] at hpref
            simp at hpref
        · exact concatAll_mem (by simp [planningPromptPieces])
        · intro w wi wt hcw hwt
          rw [hcw] at hW
          dsimp only at hW
          rw [hwt] at hW
          obtain rfl : wit = (wi, wt) := by simpa using hW.symm
          exact concatAll_mem (by simp [planningPromptPieces])
  · intro hm
    cases hIT : intentSummaryText intent with
    | error e => rw [buildPromptWithIntent] at h; simp [hIT, Bind.bind, Except.bind] at h
    | ok intentText =>
      cases hW : (match ctx.weather with
        | some w => weatherInfoTips w req.days
        | none => Except.ok (("", "") : String × String)) with
      | error e => rw [buildPromptWithIntent] at h; simp [hIT, hW, Bind.bind, Except.bind] at h
      | ok wit =>
        rw [buildPromptWithIntent] at h
        simp [hIT, hW, hm, Bind.bind, Except.bind, Pure.pure, Except.pure] at h
        subst h
        rw [traveloguePrompt]
        refine ⟨?_, ?_, ?_, ?_, ?_, ?_⟩
        · exact concatAll_mem (by simp [traveloguePromptPieces])
        · exact concatAll_mem (by simp [traveloguePromptPieces])
        · exact concatAll_mem (by simp [traveloguePromptPieces])
        · exact concatAll_mem (by simp [traveloguePromptPieces])
        · intro pref hpref
          refine sInfix_trans ?_
            (concatAll_mem (l := traveloguePromptPieces req
              (chooseFrom (openingStyles req) oi) (chooseFrom travPersonas pj)
              (prefsStr req) (foodInfoStr ctx) (hotelInfoStr ctx))
              (x := prefsStr req) (by simp [traveloguePromptPieces]))
          rw [prefsStr, if_neg]
          · exact joinStrSep_mem "、" hpref
          · simp
            intro hempty
            rw [hempty] at hpref
            simp at hpref
        · exact concatAll_mem (by simp [traveloguePromptPieces])
  · intro w hcw hwt
    rw [buildPrompt_weather_irrelevant req ctx intent mode oi pj w hcw hwt]
    exact h

/-- Claim C8 counterexample: a context whose weather is the non-empty
`get_weather`-shaped value produces, in planning mode, exactly the same
prompt as the same context with no weather: the weather fragment is
never embedded, refuting "embeds the weather fragment whenever the
gathered weather field is non-empty". -/
theorem c8_weather_not_embedded_cex :
    jsonTruthy c8Weather = true ∧
    buildPromptWithIntent req0 c8CtxW (defaultIntent req0) "planning" 0 0 =
      buildPromptWithIntent req0 c8Ctx0 (defaultIntent req0) "planning" 0 0 := by
  exact ⟨by rfl, by rfl⟩

/-- Witness for the amended C8 at the concrete witness input. -/
theorem c8_prompt_embeds_witness :
    sInfix (attractionsInfoStr c8CtxW) c8BuiltPrompt ∧
    sInfix req0.destination c8BuiltPrompt ∧
    sInfix "请生成详细的行程攻略，最后附上JSON格式的结构化数据（用```json```包裹）。"
      c8BuiltPrompt := by
  have h : buildPromptWithIntent req0 c8CtxW (defaultIntent req0) "planning" 0 0 =
      Except.ok c8BuiltPrompt := by rfl
  have hp := (c8_prompt_embeds req0 c8CtxW (defaultIntent req0) "planning" 0 0
    c8BuiltPrompt h).1 (by rfl)
  exact ⟨hp.1, hp.2.2.2.2.1, hp.2.2.2.2.2.2.2.1⟩

/-! ### Claim C7: enrichment idempotence -/

/-- Looking up the just-assigned key. -/
theorem objGet_upsert_same : ∀ (kvs : List (List Char × Json))
    (k : List Char) (v : Json), objGet (upsert kvs k v) k = some v := by
  intro kvs k v
  induction kvs with
  | nil => simp [upsert, objGet]
  | cons a rest ih =>
    rw [upsert]
    by_cases h : a.1 = k
    · rw [if_pos h]
      simp [objGet]
    · rw [if_neg h]
      rw [objGet] at ih ⊢
      rw [List.find?_cons]
      have : (decide (a.1 = k)) = false := by simp [h]
      simp only [this]
      exact ih

/-- Assignment leaves other keys unchanged. -/
theorem objGet_upsert_other : ∀ (kvs : List (List Char × Json))
    (k k' : List Char) (v : Json), k' ≠ k →
    objGet (upsert kvs k v) k' = objGet kvs k' := by
  intro kvs k k' v hne
  induction kvs with
  | nil =>
    simp [upsert, objGet]
    intro he
    exact absurd he.symm hne
  | cons a rest ih =>
    rw [upsert]
    by_cases h : a.1 = k
    · rw [if_pos h]
      rw [objGet, objGet]
      rw [List.find?_cons, List.find?_cons]
      have h1 : (decide (k = k')) = false := by
        simp
        intro he
        exact hne he.symm
      have h2 : (decide (a.1 = k')) = false := by
        simp
        rw [h]
        intro he
        exact hne he.symm
      simp only [h1, h2]
    · rw [if_neg h]
      rw [objGet, objGet]
      rw [List.find?_cons, List.find?_cons]
      by_cases h2 : a.1 = k'
      · simp [h2]
      · have : (decide (a.1 = k')) = false := by simp [h2]
        simp only [this]
        exact ih

/-- A POI with truthy `location` and `image_url` passes through the
per-POI enrichment unchanged, with no lookup issued. -/
theorem enrichPoi_complete (env : EnrichEnv) (req : PlanRequest) (p : Json)
    (hc : poiComplete p = true) : enrichPoi env req p = Except.ok (p, []) := by
  cases p with
  | obj kvs =>
    rw [poiComplete] at hc
    simp only [Bool.and_eq_true] at hc
    rw [enrichPoi]
    simp [hc.1, hc.2]
  | null => simp [poiComplete] at hc
  | bool b => simp [poiComplete] at hc
  | num t => simp [poiComplete] at hc
  | str s => simp [poiComplete] at hc
  | arr xs => simp [poiComplete] at hc

/-- Lists of complete POIs pass through unchanged with no lookups. -/
theorem enrichPoiList_complete (env : EnrichEnv) (req : PlanRequest) :
    ∀ (l : List Json), (∀ p ∈ l, poiComplete p = true) →
    enrichPoiList env req l = Except.ok (l, []) := by
  intro l
  induction l with
  | nil => intro _; rfl
  | cons p rest ih =>
    intro hall
    rw [enrichPoiList]
    rw [enrichPoi_complete env req p (hall p (List.mem_cons_self _ _))]
    rw [ih (fun q hq => hall q (List.mem_cons_of_mem _ hq))]
    rfl

/-- On complete POIs the route loop succeeds and issues only route
computations. -/
theorem buildRoutes_route_only (env : EnrichEnv) (req : PlanRequest) :
    ∀ (l : List Json), (∀ p ∈ l, poiComplete p = true) →
    ∃ routes lg, buildRoutes env req l = Except.ok (routes, lg) ∧
      ∀ c ∈ lg, c.isRoute = true := by
  intro l
  induction l with
  | nil => intro _; exact ⟨[], [], by rw [buildRoutes], by simp⟩
  | cons p rest ih =>
    intro hall
    cases rest with
    | nil => exact ⟨[], [], by rw [buildRoutes], by simp⟩
    | cons p2 rest' =>
      have hp := hall p (List.mem_cons_self _ _)
      have hp2 := hall p2 (List.mem_cons_of_mem _ (List.mem_cons_self _ _))
      obtain ⟨routes, lg, hb, hlg⟩ := ih
        (fun q hq => hall q (List.mem_cons_of_mem _ hq))
      cases p with
      | obj k1 =>
        cases p2 with
        | obj k2 =>
          rw [poiComplete] at hp hp2
          simp only [Bool.and_eq_true] at hp hp2
          have hcond : (optTruthy (objGet k1 "location".data) &&
              optTruthy (objGet k2 "location".data)) = true := by
            simp [hp.1, hp2.1]
          rw [buildRoutes]
          rw [if_pos hcond]
          cases hr : env.route ((objGet k1 "location".data).getD Json.null)
              ((objGet k2 "location".data).getD Json.null) with
          | error e =>
            rw [hb]
            refine ⟨routes, _, rfl, ?_⟩
            intro c hc2
            rcases List.mem_cons.mp hc2 with rfl | hc3
            · rfl
            · exact hlg c hc3
          | ok routeKvs =>
            cases hn1 : objGet k1 "name".data with
            | none =>
              rw [hb]
              refine ⟨routes, _, rfl, ?_⟩
              intro c hc2
              rcases List.mem_cons.mp hc2 with rfl | hc3
              · rfl
              · exact hlg c hc3
            | some n1 =>
              cases hn2 : objGet k2 "name".data with
              | none =>
                rw [hb]
                refine ⟨routes, _, rfl, ?_⟩
                intro c hc2
                rcases List.mem_cons.mp hc2 with rfl | hc3
                · rfl
                · exact hlg c hc3
              | some n2 =>
                rw [hb]
                refine ⟨_, _, rfl, ?_⟩
                intro c hc2
                rcases List.mem_cons.mp hc2 with rfl | hc3
                · rfl
                · exact hlg c hc3
        | null => simp [poiComplete] at hp2
        | bool b => simp [poiComplete] at hp2
        | num t => simp [poiComplete] at hp2
        | str s => simp [poiComplete] at hp2
        | arr xs => simp [poiComplete] at hp2
      | null => simp [poiComplete] at hp
      | bool b => simp [poiComplete] at hp
      | num t => simp [poiComplete] at hp
      | str s => simp [poiComplete] at hp
      | arr xs => simp [poiComplete] at hp

/-- A well-formed day of complete POIs enriches successfully, keeps its
POI list unchanged, and issues only route computations. -/
theorem enrichDay_complete (env : EnrichEnv) (req : PlanRequest) (day : Json)
    (hwf : wellFormedDay day = true)
    (hc : ∀ p ∈ poisOfDay day, poiComplete p = true) :
    ∃ day2 lg, enrichDay env req day = Except.ok (day2, lg) ∧
      poisOfDay day2 = poisOfDay day ∧ ∀ c ∈ lg, c.isRoute = true := by
  cases day with
  | obj dkv =>
    cases hpv : objGet dkv "pois".data with
    | none =>
      refine ⟨Json.obj (upsert dkv "routes".data (Json.arr [])), [], ?_, ?_, by simp⟩
      · rw [enrichDay]
        simp [hpv, iterItems, enrichPoiList, buildRoutes, Bind.bind, Except.bind,
          Pure.pure, Except.pure]
      · rw [poisOfDay, poisOfDay]
        rw [objGet_upsert_other _ _ _ _ (by decide), hpv]
    | some poisV =>
      cases poisV with
      | arr ps =>
        have hps : poisOfDay (Json.obj dkv) = ps := by
          rw [poisOfDay, hpv]
        rw [hps] at hc
        have hlist := enrichPoiList_complete env req ps hc
        obtain ⟨routes, lg, hbr, hlg⟩ := buildRoutes_route_only env req ps hc
        refine ⟨Json.obj (upsert (upsert dkv "pois".data (Json.arr ps))
          "routes".data (Json.arr routes)), lg, ?_, ?_, hlg⟩
        · rw [enrichDay]
          simp [hpv, iterItems, hlist, hbr, Bind.bind, Except.bind,
            Pure.pure, Except.pure]
        · rw [poisOfDay, hps]
          rw [objGet_upsert_other _ _ _ _ (by decide), objGet_upsert_same]
      | obj o => rw [wellFormedDay, hpv] at hwf; simp at hwf
      | null => rw [wellFormedDay, hpv] at hwf; simp at hwf
      | bool b => rw [wellFormedDay, hpv] at hwf; simp at hwf
      | num t => rw [wellFormedDay, hpv] at hwf; simp at hwf
      | str st => rw [wellFormedDay, hpv] at hwf; simp at hwf
  | null => simp [wellFormedDay] at hwf
  | bool b => simp [wellFormedDay] at hwf
  | num t => simp [wellFormedDay] at hwf
  | str s => simp [wellFormedDay] at hwf
  | arr xs => simp [wellFormedDay] at hwf

/-- Day-list version of `enrichDay_complete`. -/
theorem enrichDayList_complete (env : EnrichEnv) (req : PlanRequest) :
    ∀ (ds : List Json), (∀ d ∈ ds, wellFormedDay d = true) →
    (∀ d ∈ ds, ∀ p ∈ poisOfDay d, poiComplete p = true) →
    ∃ ds2 lg, enrichDayList env req ds = Except.ok (ds2, lg) ∧
      ds2.map poisOfDay = ds.map poisOfDay ∧ ∀ c ∈ lg, c.isRoute = true := by
  intro ds
  induction ds with
  | nil => intro _ _; exact ⟨[], [], rfl, rfl, by simp⟩
  | cons d rest ih =>
    intro hwf hc
    obtain ⟨d2, lg1, hd, hpd, hlg1⟩ := enrichDay_complete env req d
      (hwf d (List.mem_cons_self _ _)) (hc d (List.mem_cons_self _ _))
    obtain ⟨rest2, lg2, hrest, hprest, hlg2⟩ := ih
      (fun x hx => hwf x (List.mem_cons_of_mem _ hx))
      (fun x hx => hc x (List.mem_cons_of_mem _ hx))
    refine ⟨d2 :: rest2, lg1 ++ lg2, ?_, ?_, ?_⟩
    · rw [enrichDayList]
      rw [hd, hrest]
      rfl
    · simp [hpd, hprest]
    · intro c hcm
      rcases List.mem_append.mp hcm with h1 | h2
      · exact hlg1 c h1
      · exact hlg2 c h2

/-- Claim C7: on every well-formed plan in which each POI already has a
truthy `location` and `image_url`, re-running enrichment succeeds,
leaves every POI dict — hence its `location`, `address`, `id` and
`image_url` — unchanged, and issues no coordinate-search or
image-search lookups (every logged call is a route computation). -/
theorem c7_enrich_idempotent (env : EnrichEnv) (req : PlanRequest)
    (plan : Json) (hwf : wellFormedPlan plan = true)
    (hc : allPoisComplete plan = true) :
    ∃ plan2 lg, enrichPlan env plan req = Except.ok (plan2, lg) ∧
      poisOfPlan plan2 = poisOfPlan plan ∧ ∀ c ∈ lg, c.isRoute = true := by
  cases plan with
  | obj kvs =>
    have hkeys : objGet (upsert (upsert kvs "id".data
        (Json.str env.freshId.data)) "created_at".data
        (Json.str env.now.data)) "daily_plans".data =
        objGet kvs "daily_plans".data := by
      rw [objGet_upsert_other _ _ _ _ (by decide),
        objGet_upsert_other _ _ _ _ (by decide)]
    cases hdv : objGet kvs "daily_plans".data with
    | none =>
      refine ⟨Json.obj (upsert (upsert kvs "id".data
        (Json.str env.freshId.data)) "created_at".data
        (Json.str env.now.data)), [], ?_, ?_, by simp⟩
      · rw [enrichPlan]
        simp [hkeys, hdv, iterItems, enrichDayList, Bind.bind, Except.bind,
          Pure.pure, Except.pure]
      · rw [poisOfPlan, poisOfPlan, daysOfPlan, daysOfPlan]
        rw [hkeys, hdv]
    | some daysV =>
      cases daysV with
      | arr ds =>
        have hwfds : ∀ d ∈ ds, wellFormedDay d = true := by
          rw [wellFormedPlan, hdv] at hwf
          simpa using hwf
        have hdays : daysOfPlan (Json.obj kvs) = ds := by
          rw [daysOfPlan, hdv]
        have hcds : ∀ d ∈ ds, ∀ p ∈ poisOfDay d, poiComplete p = true := by
          intro d hd p hp
          rw [allPoisComplete] at hc
          rw [List.all_eq_true] at hc
          refine hc p ?_
          rw [poisOfPlan, hdays]
          rw [List.mem_flatten]
          exact ⟨poisOfDay d, List.mem_map.mpr ⟨d, hd, rfl⟩, hp⟩
        obtain ⟨ds2, lg, hdl, hmap, hlg⟩ := enrichDayList_complete env req ds
          hwfds hcds
        refine ⟨Json.obj (upsert (upsert (upsert kvs "id".data
          (Json.str env.freshId.data)) "created_at".data
          (Json.str env.now.data)) "daily_plans".data (Json.arr ds2)), lg,
          ?_, ?_, hlg⟩
        · rw [enrichPlan]
          simp [hkeys, hdv, iterItems, hdl, Bind.bind, Except.bind,
            Pure.pure, Except.pure]
        · rw [poisOfPlan, poisOfPlan, daysOfPlan, daysOfPlan]
          rw [objGet_upsert_same, hdv]
          simp [hmap]
      | obj o => rw [wellFormedPlan, hdv] at hwf; simp at hwf
      | null => rw [wellFormedPlan, hdv] at hwf; simp at hwf
      | bool b => rw [wellFormedPlan, hdv] at hwf; simp at hwf
      | num t => rw [wellFormedPlan, hdv] at hwf; simp at hwf
      | str st => rw [wellFormedPlan, hdv] at hwf; simp at hwf
  | null => simp [wellFormedPlan] at hwf
  | bool b => simp [wellFormedPlan] at hwf
  | num t => simp [wellFormedPlan] at hwf
  | str s => simp [wellFormedPlan] at hwf
  | arr xs => simp [wellFormedPlan] at hwf

/-- Witness for C7 at a concrete complete two-POI plan, against an
environment whose coordinate and image searches raise (showing they are
never invoked). -/
theorem c7_enrich_idempotent_witness :
    wellFormedPlan c7Plan = true ∧ allPoisComplete c7Plan = true ∧
    (∃ plan2 lg, enrichPlan c7Env c7Plan req0 = Except.ok (plan2, lg) ∧
      poisOfPlan plan2 = poisOfPlan c7Plan ∧ ∀ c ∈ lg, c.isRoute = true) :=
  ⟨by rfl, by rfl, c7_enrich_idempotent c7Env req0 c7Plan (by rfl) (by rfl)⟩

/-! ### Totality lemmas for the gather and enrichment stages (C4) -/

/-- An iterable optional field iterates. -/
theorem iterOk_total (v : Json) (h : iterOk (some v) = true) :
    ∃ l, iterItems v = Except.ok l := by
  cases v with
  | arr xs => exact ⟨xs, rfl⟩
  | str s => exact ⟨_, rfl⟩
  | obj kvs => exact ⟨_, rfl⟩
  | null => simp [iterOk] at h
  | bool b => simp [iterOk] at h
  | num t => simp [iterOk] at h

/-- A sliceable optional field slices. -/
theorem sliceOk_total (v : Json) (n : Nat) (h : sliceOk (some v) = true) :
    ∃ l, pySliceJson v n = Except.ok l := by
  cases v with
  | arr xs => exact ⟨_, rfl⟩
  | str s => exact ⟨_, rfl⟩
  | null => simp [sliceOk] at h
  | bool b => simp [sliceOk] at h
  | num t => simp [sliceOk] at h
  | obj kvs => simp [sliceOk] at h

/-- The gather never raises on a gather-safe intent, whatever its
environment does. -/
theorem gather_total (genv : GatherEnv) (req : PlanRequest) (intent : Json)
    (hs : intentGatherSafe intent = true) :
    ∃ ctx, gatherContextWithIntent genv req intent = Except.ok ctx := by
  cases intent with
  | obj ikv =>
    rw [intentGatherSafe] at hs
    simp only [Bool.and_eq_true] at hs
    obtain ⟨⟨⟨h1, h2⟩, h3⟩, h4⟩ := hs
    have e1 : ∃ l, intentIter ikv "specific_places" = Except.ok l := by
      rw [intentIter]
      cases hv : objGet ikv "specific_places".data with
      | none => exact ⟨[], rfl⟩
      | some v => rw [hv] at h1; exact iterOk_total v h1
    have e2 : ∃ l, (match objGet ikv "search_keywords".data with
        | none => Except.ok [Json.str (req.destination ++ " 景点").data]
        | some v => pySliceJson v 3) = Except.ok l := by
      cases hv : objGet ikv "search_keywords".data with
      | none => exact ⟨_, rfl⟩
      | some v => rw [hv] at h2; exact sliceOk_total v 3 h2
    have e3 : ∃ l, intentIter ikv "must_eat" = Except.ok l := by
      rw [intentIter]
      cases hv : objGet ikv "must_eat".data with
      | none => exact ⟨[], rfl⟩
      | some v => rw [hv] at h3; exact iterOk_total v h3
    have e4 : ∃ l, (match objGet ikv "suggested_areas".data with
        | none => Except.ok [Json.str req.destination.data]
        | some v => pySliceJson v 2) = Except.ok l := by
      cases hv : objGet ikv "suggested_areas".data with
      | none => exact ⟨_, rfl⟩
      | some v => rw [hv] at h4; exact sliceOk_total v 2 h4
    obtain ⟨l1, he1⟩ := e1
    obtain ⟨l2, he2⟩ := e2
    obtain ⟨l3, he3⟩ := e3
    obtain ⟨l4, he4⟩ := e4
    simp only [gatherContextWithIntent, he1, he2, he3, he4, Bind.bind,
      Except.bind, Pure.pure, Except.pure]
    exact ⟨_, rfl⟩
  | null => simp [intentGatherSafe] at hs
  | bool b => simp [intentGatherSafe] at hs
  | num t => simp [intentGatherSafe] at hs
  | str st => simp [intentGatherSafe] at hs
  | arr xs => simp [intentGatherSafe] at hs

/-- The default intent is gather-safe for every request. -/
theorem defaultIntent_gather_safe (req : PlanRequest) :
    intentGatherSafe (defaultIntent req) = true := rfl

/-- Enriching a POI dict never raises and yields a dict. -/
theorem enrichPoi_total (env : EnrichEnv) (req : PlanRequest)
    (kvs : List (List Char × Json)) :
    ∃ okvs lg, enrichPoi env req (Json.obj kvs) =
      Except.ok (Json.obj okvs, lg) := ⟨_, _, rfl⟩

/-- Enriching a list of POI dicts never raises and yields dicts. -/
theorem enrichPoiList_total (env : EnrichEnv) (req : PlanRequest) :
    ∀ (l : List Json),
    (∀ p ∈ l, (match p with | Json.obj _ => true | _ => false) = true) →
    ∃ out, enrichPoiList env req l = Except.ok out ∧
      ∀ p ∈ out.1, (match p with | Json.obj _ => true | _ => false) = true := by
  intro l
  induction l with
  | nil => exact fun _ => ⟨([], []), rfl, by simp⟩
  | cons p rest ih =>
    intro hall
    have hp := hall p (List.mem_cons_self _ _)
    obtain ⟨outr, hor, hro⟩ := ih (fun q hq => hall q (List.mem_cons_of_mem _ hq))
    cases p with
    | obj kvs =>
      obtain ⟨okvs, lg, ho1⟩ := enrichPoi_total env req kvs
      refine ⟨(Json.obj okvs :: outr.1, lg ++ outr.2), ?_, ?_⟩
      · rw [enrichPoiList]
        simp only [ho1, hor, Bind.bind, Except.bind, Pure.pure, Except.pure]
      · intro q hq
        rcases List.mem_cons.mp hq with rfl | hq2
        · rfl
        · exact hro q hq2
    | null => simp at hp
    | bool b => simp at hp
    | num t => simp at hp
    | str s => simp at hp
    | arr xs => simp at hp

/-- The route loop never raises on a list of POI dicts. -/
theorem buildRoutes_total (env : EnrichEnv) (req : PlanRequest) :
    ∀ (l : List Json),
    (∀ p ∈ l, (match p with | Json.obj _ => true | _ => false) = true) →
    ∃ out, buildRoutes env req l = Except.ok out := by
  intro l
  induction l with
  | nil => exact fun _ => ⟨([], []), by rw [buildRoutes]⟩
  | cons p rest ih =>
    intro hall
    cases rest with
    | nil => exact ⟨([], []), by rw [buildRoutes]⟩
    | cons p2 rest' =>
      have hp := hall p (List.mem_cons_self _ _)
      have hp2 := hall p2 (List.mem_cons_of_mem _ (List.mem_cons_self _ _))
      obtain ⟨outr, hor⟩ := ih (fun q hq => hall q (List.mem_cons_of_mem _ hq))
      cases p with
      | obj k1 =>
        cases p2 with
        | obj k2 =>
          rw [buildRoutes]
          by_cases hcond : (optTruthy (objGet k1 "location".data) &&
              optTruthy (objGet k2 "location".data)) = true
          · rw [if_pos hcond]
            cases hr : env.route ((objGet k1 "location".data).getD Json.null)
                ((objGet k2 "location".data).getD Json.null) with
            | error e => rw [hor]; exact ⟨_, rfl⟩
            | ok routeKvs =>
              cases hn1 : objGet k1 "name".data with
              | none => rw [hor]; exact ⟨_, rfl⟩
              | some n1 =>
                cases hn2 : objGet k2 "name".data with
                | none => rw [hor]; exact ⟨_, rfl⟩
                | some n2 => rw [hor]; exact ⟨_, rfl⟩
          · rw [if_neg hcond]
            exact ⟨outr, hor⟩
        | null => simp at hp2
        | bool b => simp at hp2
        | num t => simp at hp2
        | str s => simp at hp2
        | arr xs => simp at hp2
      | null => simp at hp
      | bool b => simp at hp
      | num t => simp at hp
      | str s => simp at hp
      | arr xs => simp at hp

/-- Enriching a well-formed day never raises. -/
theorem enrichDay_total (env : EnrichEnv) (req : PlanRequest) (day : Json)
    (hwf : wellFormedDay day = true) :
    ∃ out, enrichDay env req day = Except.ok out := by
  cases day with
  | obj dkv =>
    cases hpv : objGet dkv "pois".data with
    | none =>
      simp only [enrichDay, hpv, Option.getD, iterItems, enrichPoiList,
        buildRoutes, Bind.bind, Except.bind, Pure.pure, Except.pure]
      exact ⟨_, rfl⟩
    | some poisV =>
      cases poisV with
      | arr ps =>
        have hobj : ∀ p ∈ ps,
            (match p with | Json.obj _ => true | _ => false) = true := by
          rw [wellFormedDay, hpv] at hwf
          simpa using hwf
        obtain ⟨pl, hpl, hpo⟩ := enrichPoiList_total env req ps hobj
        obtain ⟨rl, hrl⟩ := buildRoutes_total env req pl.1 hpo
        simp only [enrichDay, hpv, Option.getD, iterItems, hpl, hrl, Bind.bind,
          Except.bind, Pure.pure, Except.pure]
        exact ⟨_, rfl⟩
      | obj o => rw [wellFormedDay, hpv] at hwf; simp at hwf
      | null => rw [wellFormedDay, hpv] at hwf; simp at hwf
      | bool b => rw [wellFormedDay, hpv] at hwf; simp at hwf
      | num t => rw [wellFormedDay, hpv] at hwf; simp at hwf
      | str st => rw [wellFormedDay, hpv] at hwf; simp at hwf
  | null => simp [wellFormedDay] at hwf
  | bool b => simp [wellFormedDay] at hwf
  | num t => simp [wellFormedDay] at hwf
  | str s => simp [wellFormedDay] at hwf
  | arr xs => simp [wellFormedDay] at hwf

/-- Enriching a list of well-formed days never raises. -/
theorem enrichDayList_total (env : EnrichEnv) (req : PlanRequest) :
    ∀ (ds : List Json), (∀ d ∈ ds, wellFormedDay d = true) →
    ∃ out, enrichDayList env req ds = Except.ok out := by
  intro ds
  induction ds with
  | nil => exact fun _ => ⟨([], []), rfl⟩
  | cons d rest ih =>
    intro hall
    obtain ⟨od, hod⟩ := enrichDay_total env req d (hall d (List.mem_cons_self _ _))
    obtain ⟨orest, hor⟩ := ih (fun x hx => hall x (List.mem_cons_of_mem _ hx))
    refine ⟨(od.1 :: orest.1, od.2 ++ orest.2), ?_⟩
    rw [enrichDayList]
    simp only [hod, hor, Bind.bind, Except.bind, Pure.pure, Except.pure]

/-- `_enrich_plan` never raises on a well-formed plan, whatever its
environment does: coordinate-search, image-search and route failures
are all absorbed. -/
theorem enrichPlan_total (env : EnrichEnv) (req : PlanRequest) (plan : Json)
    (hwf : wellFormedPlan plan = true) :
    ∃ out, enrichPlan env plan req = Except.ok out := by
  cases plan with
  | obj kvs =>
    have hkeys : objGet (upsert (upsert kvs "id".data
        (Json.str env.freshId.data)) "created_at".data
        (Json.str env.now.data)) "daily_plans".data =
        objGet kvs "daily_plans".data := by
      rw [objGet_upsert_other _ _ _ _ (by decide),
        objGet_upsert_other _ _ _ _ (by decide)]
    cases hdv : objGet kvs "daily_plans".data with
    | none =>
      simp only [enrichPlan, hkeys, hdv, Option.getD, iterItems,
        enrichDayList, Bind.bind, Except.bind, Pure.pure, Except.pure]
      exact ⟨_, rfl⟩
    | some daysV =>
      cases daysV with
      | arr ds =>
        have hwfds : ∀ d ∈ ds, wellFormedDay d = true := by
          rw [wellFormedPlan, hdv] at hwf
          simpa using hwf
        obtain ⟨od, hod⟩ := enrichDayList_total env req ds hwfds
        simp only [enrichPlan, hkeys, hdv, Option.getD, iterItems, hod,
          Bind.bind, Except.bind, Pure.pure, Except.pure]
        exact ⟨_, rfl⟩
      | obj o => rw [wellFormedPlan, hdv] at hwf; simp at hwf
      | null => rw [wellFormedPlan, hdv] at hwf; simp at hwf
      | bool b => rw [wellFormedPlan, hdv] at hwf; simp at hwf
      | num t => rw [wellFormedPlan, hdv] at hwf; simp at hwf
      | str st => rw [wellFormedPlan, hdv] at hwf; simp at hwf
  | null => simp [wellFormedPlan] at hwf
  | bool b => simp [wellFormedPlan] at hwf
  | num t => simp [wellFormedPlan] at hwf
  | str s => simp [wellFormedPlan] at hwf
  | arr xs => simp [wellFormedPlan] at hwf

/-- C4 counterexample: enrichment is an unabsorbed failure class.  The
generation chat SUCCEEDS (no provider failure anywhere after intent
extraction), returning a narrative whose fenced JSON carries the
`trip_plan` marker but lists strings under `daily_plans`; the parser
accepts it, `_enrich_plan` raises `AttributeError` outside any
`try`, and `create_plan` propagates the error to its caller. -/
theorem c4_enrichment_failure_surfaces :
    c4PEnv.genChat = Except.ok c4Resp.data ∧
    plannerCreatePlan c4PEnv req0 "planning" = Except.error () :=
  ⟨rfl, by rfl⟩

/-- Claim C4 (amended): the pipeline's failure taxonomy.  (1) When the
gather and prompt build succeed and the generation chat call fails,
`create_plan` propagates the error: no partial narrative is produced.
(2) With a successful generation chat, a response with no parseable
plan is absorbed into an ok result carrying the full narrative and
`plan = None`.  (3) When parsing and enrichment succeed, the result is
ok with the enriched plan.  (4) The gather never raises on any
gather-safe intent — its weather/geocode/search failures are all
absorbed — and (5) the default intent (used whenever the
intent-extraction chat call fails) is gather-safe, so an
intent-extraction provider failure does NOT surface.  (6) Enrichment
never raises on well-formed plans: its lookup failures are absorbed
(the unabsorbed class is malformed plan shapes, see the
counterexample). -/
theorem c4_error_taxonomy :
    (∀ (env : PipelineEnv) (req : PlanRequest) (mode : String),
      (∃ ctx pr, gatherContextWithIntent env.gatherEnv req
          (extractTravelIntent env.intentChat req) = Except.ok ctx ∧
        buildPromptWithIntent req ctx (extractTravelIntent env.intentChat req)
          mode env.openIdx env.personaIdx = Except.ok pr) →
      env.genChat = Except.error () →
      plannerCreatePlan env req mode = Except.error ()) ∧
    (∀ (env : PipelineEnv) (req : PlanRequest) (mode : String)
        (resp : List Char),
      (∃ ctx pr, gatherContextWithIntent env.gatherEnv req
          (extractTravelIntent env.intentChat req) = Except.ok ctx ∧
        buildPromptWithIntent req ctx (extractTravelIntent env.intentChat req)
          mode env.openIdx env.personaIdx = Except.ok pr) →
      env.genChat = Except.ok resp →
      parsePlanFromResponse resp = none →
      ∃ res, plannerCreatePlan env req mode = Except.ok res ∧
        res.reply = resp ∧ res.plan = none) ∧
    (∀ (env : PipelineEnv) (req : PlanRequest) (mode : String)
        (resp : List Char) (p p2 : Json) (lg : List EnrichCall),
      (∃ ctx pr, gatherContextWithIntent env.gatherEnv req
          (extractTravelIntent env.intentChat req) = Except.ok ctx ∧
        buildPromptWithIntent req ctx (extractTravelIntent env.intentChat req)
          mode env.openIdx env.personaIdx = Except.ok pr) →
      env.genChat = Except.ok resp →
      parsePlanFromResponse resp = some p →
      enrichPlan env.enrichEnv p req = Except.ok (p2, lg) →
      ∃ res, plannerCreatePlan env req mode = Except.ok res ∧
        res.reply = resp ∧ res.plan = some p2) ∧
    (∀ (genv : GatherEnv) (req : PlanRequest) (intent : Json),
      intentGatherSafe intent = true →
      ∃ ctx, gatherContextWithIntent genv req intent = Except.ok ctx) ∧
    (∀ req : PlanRequest, intentGatherSafe (defaultIntent req) = true) ∧
    (∀ (eenv : EnrichEnv) (req : PlanRequest) (plan : Json),
      wellFormedPlan plan = true →
      ∃ out, enrichPlan eenv plan req = Except.ok out) := by
  refine ⟨?_, ?_, ?_, gather_total, defaultIntent_gather_safe, ?_⟩
  · intro env req mode hok hchat
    obtain ⟨ctx, pr, hg, hb⟩ := hok
    simp only [plannerCreatePlan, hg, hb, hchat, Bind.bind, Except.bind]
  · intro env req mode resp hok hchat hparse
    obtain ⟨ctx, pr, hg, hb⟩ := hok
    simp only [plannerCreatePlan, hg, hb, hchat, hparse, Bind.bind,
      Except.bind, Pure.pure, Except.pure]
    exact ⟨_, rfl, rfl, rfl⟩
  · intro env req mode resp p p2 lg hok hchat hparse henr
    obtain ⟨ctx, pr, hg, hb⟩ := hok
    simp only [plannerCreatePlan, hg, hb, hchat, hparse, henr, Except.map,
      Bind.bind, Except.bind, Pure.pure, Except.pure]
    exact ⟨_, rfl, rfl, rfl⟩
  · intro eenv req plan hwf
    exact enrichPlan_total eenv req plan hwf

/-- C4 witness: a pipeline run in which the intent chat FAILS (absorbed
into the default intent), the gather's weather/geocode raise (absorbed),
and the generation chat returns prose with no plan — the pipeline still
returns ok with the narrative and no plan. -/
theorem c4_error_taxonomy_witness :
    ∃ res, plannerCreatePlan c4WEnv req0 "planning" = Except.ok res ∧
      res.reply = "好的".data ∧ res.plan = none :=
  c4_error_taxonomy.2.1 c4WEnv req0 "planning" "好的".data ⟨_, _, rfl, rfl⟩ rfl rfl

end TRS
